import Mathlib

/-!
Verification development for the Web-News-Provenance repository
(`backend/Nepr/api/services/sparql_service.py`).

This file shallow-embeds the two core subsystems of the repository:

* the graph-to-record materializer (`populate_article_data` together with the
  sub-entity builders `populate_person`, `populate_organization`,
  `populate_image_data`, `populate_audio_data`, `populate_video_data`), and
* the recommendation pipeline (`_extract_user_preferences`,
  `_get_candidate_articles`, `_rank_articles`,
  `_calculate_metadata_similarity`, `get_recommendations`,
  `execute_search_sparql_query`, `execute_sparql_query`).

Conventions of the embedding:

* Python dictionaries with a fixed key set become Lean structures; a value of
  `None` becomes `Option.none`.
* Python floats: every number manipulated by the scoring code is a small sum
  of the literals 0.3, 0.4, 0.7 and products with cosine similarities; the
  embedding uses `ℚ` for these quantities.
* A Python statement that raises an exception which is caught by an enclosing
  `try/except` is modelled by `Except`-valued helpers whose `Except.error`
  outcome makes the enclosing step a no-op (the source logs and continues).
* Machine integers: `int(...)` values are unbounded in Python, so they are
  embedded as `Int` with a partial parser `pyInt?` standing for the built-in
  `int(...)` conversion (`none` models the raised `ValueError`/`TypeError`).
-/

/-- Model of Python's built-in `int(str)` digit parsing (`none` = raises). -/
def pyDigits? (cs : List Char) : Option Nat :=
  if cs.isEmpty then none
  else cs.foldlM (fun acc c =>
    if c.isDigit then some (acc * 10 + (c.toNat - '0'.toNat)) else none) 0

/-- Model of Python's built-in `int(...)` applied to a string: optional
whitespace trimming and sign, then decimal digits; `none` models the raised
`ValueError` (and `int(None)`'s `TypeError` is modelled at the call sites). -/
def pyInt? (s : String) : Option Int :=
  match s.trim.toList with
  | '-' :: rest => (pyDigits? rest).map (fun n => -(n : Int))
  | '+' :: rest => (pyDigits? rest).map (fun n => (n : Int))
  | l => (pyDigits? l).map (fun n => (n : Int))

/-- One binding row of the 2-hop article query in `get_article_by_url`
(`SELECT ?p ?o ?subP ?subO`): `p` and `o` are always bound, the second hop is
optional. -/
structure Row where
  p : String
  o : String
  subP : Option String
  subO : Option String
deriving DecidableEq

/-- `person_data` as built by `populate_person`. -/
structure PersonData where
  name : Option String
  atType : Option String
  jobTitle : Option String
  address : Option String
  affiliation : Option String
  birthDate : Option String
  birthPlace : Option String
  deathDate : Option String
  deathPlace : Option String
  email : Option String
  familyName : Option String
  gender : Option String
  givenName : Option String
  nationality : Option String
deriving DecidableEq

/-- The all-`None` initial `person_data` dictionary. -/
def PersonData.init : PersonData :=
  ⟨none, none, none, none, none, none, none, none, none, none, none, none, none, none⟩

/-- `organization_data` as built by `populate_organization`. -/
structure OrgData where
  name : Option String
  atType : Option String
  address : Option String
  affiliation : Option String
  email : Option String
deriving DecidableEq

/-- The all-`None` initial `organization_data` dictionary. -/
def OrgData.init : OrgData := ⟨none, none, none, none, none⟩

/-- An element of the `author`/`publisher`/`editor` collections.  In the
source these collections hold plain dictionaries; a Person dictionary
(14 keys), an Organization dictionary (5 keys) and the empty dictionary `{}`
are pairwise distinct under Python `==`, which the constructors mirror. -/
inductive AgentData
  | emptyAgent
  | person (d : PersonData)
  | org (d : OrgData)
deriving DecidableEq

/-- `image_data` as built by `populate_image_data`. -/
structure ImageData where
  height : Option Int
  width : Option Int
  url : Option String
  atType : Option String
deriving DecidableEq

/-- The all-`None` initial `image_data` dictionary. -/
def ImageData.init : ImageData := ⟨none, none, none, none⟩

/-- `audio_data` / `video_data` as built by `populate_audio_data` and
`populate_video_data` (the two dictionaries have the same key set). -/
structure AvMediaData where
  caption : Option String
  transcript : Option String
  atType : Option String
  contentUrl : Option String
  duration : Option String
  embedUrl : Option String
  height : Option Int
  uploadDate : Option String
  width : Option Int
deriving DecidableEq

/-- The all-`None` initial `audio_data`/`video_data` dictionary. -/
def AvMediaData.init : AvMediaData :=
  ⟨none, none, none, none, none, none, none, none, none⟩

/-- `article_data` as built by `populate_article_data`.  `editor` is
initialized to a dictionary `{}` in the source and, as proved below, is never
successfully appended to (the membership test `editor_data not in {}` raises
`TypeError: unhashable type` which the per-tuple handler catches), so it is
embedded as an always-empty list. -/
structure ArticleData where
  atContext : String
  atType : Option String
  url : String
  author : List AgentData
  publisher : List AgentData
  image : List ImageData
  keywords : List String
  datePublished : Option String
  headline : Option String
  articleBody : Option String
  wordCount : Option Int
  inLanguage : Option String
  thumbnailUrl : Option String
  thumbnail : Option ImageData
  articleSection : Option String
  abstract : Option String
  audio : List AvMediaData
  video : List AvMediaData
  editor : List AgentData
  dateCreated : Option String
  dateModified : Option String
deriving DecidableEq

/-- The initial `article_data` dictionary of `populate_article_data`. -/
def initArticleData (url : String) : ArticleData where
  atContext := "http://schema.org"
  atType := none
  url := url
  author := []
  publisher := []
  image := []
  keywords := []
  datePublished := none
  headline := none
  articleBody := none
  wordCount := none
  inLanguage := none
  thumbnailUrl := none
  thumbnail := none
  articleSection := none
  abstract := none
  audio := []
  video := []
  editor := []
  dateCreated := none
  dateModified := none

def schemaType : String := "http://schema.org/@type"
def schemaHeadline : String := "http://schema.org/headline"
def schemaDatePublished : String := "http://schema.org/datePublished"
def schemaDateModified : String := "http://schema.org/dateModified"
def schemaArticleBody : String := "http://schema.org/articleBody"
def schemaWordCount : String := "http://schema.org/wordCount"
def schemaInLanguage : String := "http://schema.org/inLanguage"
def schemaThumbnailUrl : String := "http://schema.org/thumbnailUrl"
def schemaArticleSection : String := "http://schema.org/articleSection"
def schemaAbstract : String := "http://schema.org/abstract"
def schemaKeywords : String := "http://schema.org/keywords"
def schemaUrl : String := "http://schema.org/url"
def schemaAuthor : String := "http://schema.org/author"
def schemaPublisher : String := "http://schema.org/publisher"
def schemaImage : String := "http://schema.org/image"
def schemaThumbnail : String := "http://schema.org/thumbnail"
def schemaAudio : String := "http://schema.org/audio"
def schemaVideo : String := "http://schema.org/video"
def schemaEditor : String := "http://schema.org/editor"
def schemaDateCreated : String := "http://schema.org/dateCreated"
def schemaName : String := "http://schema.org/name"
def schemaJobTitle : String := "http://schema.org/jobTitle"
def schemaAddress : String := "http://schema.org/address"
def schemaAffiliation : String := "http://schema.org/affiliation"
def schemaBirthDate : String := "http://schema.org/birthDate"
def schemaBirthPlace : String := "http://schema.org/birthPlace"
def schemaDeathDate : String := "http://schema.org/deathDate"
def schemaDeathPlace : String := "http://schema.org/deathPlace"
def schemaEmail : String := "http://schema.org/email"
def schemaFamilyName : String := "http://schema.org/familyName"
def schemaGender : String := "http://schema.org/gender"
def schemaGivenName : String := "http://schema.org/givenName"
def schemaNationality : String := "http://schema.org/nationality"
def schemaCaption : String := "http://schema.org/caption"
def schemaTranscript : String := "http://schema.org/transcript"
def schemaContentUrl : String := "http://schema.org/contentUrl"
def schemaDuration : String := "http://schema.org/duration"
def schemaEmbedUrl : String := "http://schema.org/embedUrl"
def schemaHeight : String := "http://schema.org/height"
def schemaUploadDate : String := "http://schema.org/uploadDate"
def schemaWidth : String := "http://schema.org/width"

/-- The `(sub_predicate, sub_object)` pairs that a sub-entity builder scans:
all rows of the full result set whose outer object equals the current row's
outer object (`if result.get('o', {}).get('value') == subject`), zipping the
two equal-length comprehensions of the source into pairs. -/
def subPairs (result : Row) (results : List Row) : List (Option String × Option String) :=
  (results.filter (fun r => r.o = result.o)).map (fun r => (r.subP, r.subO))

/-- `populate_person(result, results)`: fold the matching sub-pairs over the
initial dictionary; a sub-predicate that is absent (`None`) matches no branch,
and an assignment stores the (possibly absent) sub-object as is. -/
def populatePerson (result : Row) (results : List Row) : PersonData :=
  (subPairs result results).foldl (fun pd pair =>
    if pair.1 = some schemaName then { pd with name := pair.2 }
    else if pair.1 = some schemaType then { pd with atType := pair.2 }
    else if pair.1 = some schemaJobTitle then { pd with jobTitle := pair.2 }
    else if pair.1 = some schemaAddress then { pd with address := pair.2 }
    else if pair.1 = some schemaAffiliation then { pd with affiliation := pair.2 }
    else if pair.1 = some schemaBirthDate then { pd with birthDate := pair.2 }
    else if pair.1 = some schemaBirthPlace then { pd with birthPlace := pair.2 }
    else if pair.1 = some schemaDeathDate then { pd with deathDate := pair.2 }
    else if pair.1 = some schemaDeathPlace then { pd with deathPlace := pair.2 }
    else if pair.1 = some schemaEmail then { pd with email := pair.2 }
    else if pair.1 = some schemaFamilyName then { pd with familyName := pair.2 }
    else if pair.1 = some schemaGender then { pd with gender := pair.2 }
    else if pair.1 = some schemaGivenName then { pd with givenName := pair.2 }
    else if pair.1 = some schemaNationality then { pd with nationality := pair.2 }
    else pd) PersonData.init

/-- `populate_organization(result, results)`. -/
def populateOrganization (result : Row) (results : List Row) : OrgData :=
  (subPairs result results).foldl (fun od pair =>
    if pair.1 = some schemaName then { od with name := pair.2 }
    else if pair.1 = some schemaType then { od with atType := pair.2 }
    else if pair.1 = some schemaAddress then { od with address := pair.2 }
    else if pair.1 = some schemaAffiliation then { od with affiliation := pair.2 }
    else if pair.1 = some schemaEmail then { od with email := pair.2 }
    else od) OrgData.init

/-- One assignment step of `populate_image_data`: `int(sub_object_value)` on
the `height`/`width` branches raises (modelled by `Except.error`) when the
sub-object is absent (`TypeError`) or not a decimal literal (`ValueError`). -/
def imageStep (im : ImageData) (pair : Option String × Option String) :
    Except Unit ImageData :=
  if pair.1 = some schemaHeight then
    match pair.2 with
    | none => .error ()
    | some s => match pyInt? s with
      | none => .error ()
      | some n => .ok { im with height := some n }
  else if pair.1 = some schemaWidth then
    match pair.2 with
    | none => .error ()
    | some s => match pyInt? s with
      | none => .error ()
      | some n => .ok { im with width := some n }
  else if pair.1 = some schemaType then .ok { im with atType := pair.2 }
  else if pair.1 = some schemaUrl then .ok { im with url := pair.2 }
  else .ok im

/-- `populate_image_data(result, results)`; an `Except.error` outcome models
an exception escaping the builder into the caller's per-tuple handler. -/
def populateImageData (result : Row) (results : List Row) : Except Unit ImageData :=
  (subPairs result results).foldlM imageStep ImageData.init

/-- One assignment step of `populate_audio_data` / `populate_video_data`
(the two function bodies are identical). -/
def avMediaStep (ad : AvMediaData) (pair : Option String × Option String) :
    Except Unit AvMediaData :=
  if pair.1 = some schemaCaption then .ok { ad with caption := pair.2 }
  else if pair.1 = some schemaTranscript then .ok { ad with transcript := pair.2 }
  else if pair.1 = some schemaType then .ok { ad with atType := pair.2 }
  else if pair.1 = some schemaContentUrl then .ok { ad with contentUrl := pair.2 }
  else if pair.1 = some schemaDuration then .ok { ad with duration := pair.2 }
  else if pair.1 = some schemaEmbedUrl then .ok { ad with embedUrl := pair.2 }
  else if pair.1 = some schemaHeight then
    match pair.2 with
    | none => .error ()
    | some s => match pyInt? s with
      | none => .error ()
      | some n => .ok { ad with height := some n }
  else if pair.1 = some schemaUploadDate then .ok { ad with uploadDate := pair.2 }
  else if pair.1 = some schemaWidth then
    match pair.2 with
    | none => .error ()
    | some s => match pyInt? s with
      | none => .error ()
      | some n => .ok { ad with width := some n }
  else .ok ad

/-- `populate_audio_data(result, results)` with the arguments in the order of
its signature (`result` a row, `results` the full row list). -/
def populateAudioData (result : Row) (results : List Row) : Except Unit AvMediaData :=
  (subPairs result results).foldlM avMediaStep AvMediaData.init

/-- `populate_video_data(result, results)` (body identical to the audio one). -/
def populateVideoData (result : Row) (results : List Row) : Except Unit AvMediaData :=
  (subPairs result results).foldlM avMediaStep AvMediaData.init

/-- The agent dictionary built by the `author`/`publisher` branches of
`populate_article_data` when the row's sub-predicate is `@type`:
`Person`/`Organization` select a builder, any other (or absent) sub-object
leaves the initial empty dictionary `{}` in place. -/
def builtAgent (result : Row) (results : List Row) : AgentData :=
  if result.subO = some "Person" then .person (populatePerson result results)
  else if result.subO = some "Organization" then .org (populateOrganization result results)
  else .emptyAgent

/-- Single-field updaters: each is the record assignment of one branch of
`populate_article_data`, factored out so that unfolded terms stay small. -/
def setAtType (v : String) (art : ArticleData) : ArticleData :=
  { art with atType := some v }

def setHeadline (v : String) (art : ArticleData) : ArticleData :=
  { art with headline := some v }

def setDatePublished (v : String) (art : ArticleData) : ArticleData :=
  { art with datePublished := some v }

def setDateModified (v : String) (art : ArticleData) : ArticleData :=
  { art with dateModified := some v }

def setArticleBody (v : String) (art : ArticleData) : ArticleData :=
  { art with articleBody := some v }

def setWordCount (n : Int) (art : ArticleData) : ArticleData :=
  { art with wordCount := some n }

def setInLanguage (v : String) (art : ArticleData) : ArticleData :=
  { art with inLanguage := some v }

def setThumbnailUrl (v : String) (art : ArticleData) : ArticleData :=
  { art with thumbnailUrl := some v }

def setArticleSection (v : String) (art : ArticleData) : ArticleData :=
  { art with articleSection := some v }

def setAbstract (v : String) (art : ArticleData) : ArticleData :=
  { art with abstract := some v }

def pushKeyword (v : String) (art : ArticleData) : ArticleData :=
  { art with keywords := art.keywords ++ [v] }

def setUrl (v : String) (art : ArticleData) : ArticleData :=
  { art with url := v }

def pushAuthor (d : AgentData) (art : ArticleData) : ArticleData :=
  { art with author := art.author ++ [d] }

def pushPublisher (d : AgentData) (art : ArticleData) : ArticleData :=
  { art with publisher := art.publisher ++ [d] }

def pushImage (d : ImageData) (art : ArticleData) : ArticleData :=
  { art with image := art.image ++ [d] }

def setThumbnail (d : ImageData) (art : ArticleData) : ArticleData :=
  { art with thumbnail := some d }

def setDateCreated (v : String) (art : ArticleData) : ArticleData :=
  { art with dateCreated := some v }

/-- One iteration of the result loop of `populate_article_data`, processing
one binding row against the current `article_data`.  The enclosing
`try/except` of the source catches any exception raised while processing the
row and leaves `article_data` as it was, which the raising branches model by
returning `art` unchanged:

* the `editor` branch always raises — `editor_data not in article_data["editor"]`
  tests dictionary membership of an unhashable dictionary
  (`article_data["editor"]` is initialized to `{}` and never replaced),
  raising `TypeError`;
* the `audio` and `video` branches always raise — the source calls
  `self.populate_audio_data(results, result)` and
  `self.populate_video_data(results, result)` with the two arguments swapped
  relative to the signatures `(result, results)`, so
  `result.get('o', {})` executes `.get` on a list and raises `AttributeError`;
* `int(object_value)` on the `wordCount` branch and `int(sub_object_value)`
  inside the image builder raise on malformed input (modelled via `Option` /
  `Except`). -/
def processResult (results : List Row) (art : ArticleData) (result : Row) : ArticleData :=
  if result.p = schemaType then setAtType result.o art
  else if result.p = schemaHeadline then setHeadline result.o art
  else if result.p = schemaDatePublished then setDatePublished result.o art
  else if result.p = schemaDateModified then setDateModified result.o art
  else if result.p = schemaArticleBody then setArticleBody result.o art
  else if result.p = schemaWordCount then
    match pyInt? result.o with
    | some n => setWordCount n art
    | none => art
  else if result.p = schemaInLanguage then setInLanguage result.o art
  else if result.p = schemaThumbnailUrl then setThumbnailUrl result.o art
  else if result.p = schemaArticleSection then setArticleSection result.o art
  else if result.p = schemaAbstract then setAbstract result.o art
  else if result.p = schemaKeywords then pushKeyword result.o art
  else if result.p = schemaUrl then setUrl result.o art
  else if result.p = schemaAuthor then
    if result.subP = some schemaType then
      let authorData := builtAgent result results
      if authorData ∈ art.author then art
      else pushAuthor authorData art
    else art
  else if result.p = schemaPublisher then
    if result.subP = some schemaType then
      let publisherData := builtAgent result results
      if publisherData ∈ art.publisher ∨ publisherData = .emptyAgent then art
      else pushPublisher publisherData art
    else art
  else if result.p = schemaImage then
    match populateImageData result results with
    | .ok imageData =>
      if imageData ∈ art.image then art
      else pushImage imageData art
    | .error _ => art
  else if result.p = schemaThumbnail then
    match populateImageData result results with
    | .ok thumbnailData => setThumbnail thumbnailData art
    | .error _ => art
  else if result.p = schemaAudio then art
  else if result.p = schemaVideo then art
  else if result.p = schemaEditor then art
  else if result.p = schemaDateCreated then setDateCreated result.o art
  else art

/-- The fold of `processResult` over a row list, with the full result set
(used by the sub-entity builders for re-scanning) passed separately so that
the prefix being folded can be reasoned about independently. -/
def foldResults (results : List Row) (art : ArticleData) (rows : List Row) : ArticleData :=
  rows.foldl (processResult results) art

/-- `populate_article_data(self, results, url)`. -/
def populateArticleData (results : List Row) (url : String) : ArticleData :=
  foldResults results (initArticleData url) results

/-- Characterization of one `populate_article_data` loop iteration, field by
field.  Every later lemma about the materializer goes through this equation
bundle instead of re-unfolding `processResult`. -/
theorem processResult_spec (results : List Row) (art : ArticleData) (r : Row) :
    (processResult results art r).atContext = art.atContext ∧
    (processResult results art r).atType =
      (if r.p = schemaType then some r.o else art.atType) ∧
    (processResult results art r).headline =
      (if r.p = schemaHeadline then some r.o else art.headline) ∧
    (processResult results art r).datePublished =
      (if r.p = schemaDatePublished then some r.o else art.datePublished) ∧
    (processResult results art r).dateModified =
      (if r.p = schemaDateModified then some r.o else art.dateModified) ∧
    (processResult results art r).articleBody =
      (if r.p = schemaArticleBody then some r.o else art.articleBody) ∧
    (processResult results art r).wordCount =
      (if r.p = schemaWordCount then
        (match pyInt? r.o with
         | some n => some n
         | none => art.wordCount)
       else art.wordCount) ∧
    (processResult results art r).inLanguage =
      (if r.p = schemaInLanguage then some r.o else art.inLanguage) ∧
    (processResult results art r).thumbnailUrl =
      (if r.p = schemaThumbnailUrl then some r.o else art.thumbnailUrl) ∧
    (processResult results art r).articleSection =
      (if r.p = schemaArticleSection then some r.o else art.articleSection) ∧
    (processResult results art r).abstract =
      (if r.p = schemaAbstract then some r.o else art.abstract) ∧
    (processResult results art r).keywords =
      (if r.p = schemaKeywords then art.keywords ++ [r.o] else art.keywords) ∧
    (processResult results art r).url =
      (if r.p = schemaUrl then r.o else art.url) ∧
    (processResult results art r).author =
      (if r.p = schemaAuthor then
        (if r.subP = some schemaType then
          (if builtAgent r results ∈ art.author then art.author
           else art.author ++ [builtAgent r results])
         else art.author)
       else art.author) ∧
    (processResult results art r).publisher =
      (if r.p = schemaPublisher then
        (if r.subP = some schemaType then
          (if builtAgent r results ∈ art.publisher ∨
              builtAgent r results = AgentData.emptyAgent then art.publisher
           else art.publisher ++ [builtAgent r results])
         else art.publisher)
       else art.publisher) ∧
    (processResult results art r).image =
      (if r.p = schemaImage then
        (match populateImageData r results with
         | .ok d => if d ∈ art.image then art.image else art.image ++ [d]
         | .error _ => art.image)
       else art.image) ∧
    (processResult results art r).thumbnail =
      (if r.p = schemaThumbnail then
        (match populateImageData r results with
         | .ok d => some d
         | .error _ => art.thumbnail)
       else art.thumbnail) ∧
    (processResult results art r).audio = art.audio ∧
    (processResult results art r).video = art.video ∧
    (processResult results art r).editor = art.editor ∧
    (processResult results art r).dateCreated =
      (if r.p = schemaDateCreated then some r.o else art.dateCreated) := by
  unfold processResult
  by_cases h1 : r.p = schemaType
  case pos =>
    have hnh2 : ¬ r.p = schemaHeadline := by rw [h1]; decide
    have hnh3 : ¬ r.p = schemaDatePublished := by rw [h1]; decide
    have hnh4 : ¬ r.p = schemaDateModified := by rw [h1]; decide
    have hnh5 : ¬ r.p = schemaArticleBody := by rw [h1]; decide
    have hnh6 : ¬ r.p = schemaWordCount := by rw [h1]; decide
    have hnh7 : ¬ r.p = schemaInLanguage := by rw [h1]; decide
    have hnh8 : ¬ r.p = schemaThumbnailUrl := by rw [h1]; decide
    have hnh9 : ¬ r.p = schemaArticleSection := by rw [h1]; decide
    have hnh10 : ¬ r.p = schemaAbstract := by rw [h1]; decide
    have hnh11 : ¬ r.p = schemaKeywords := by rw [h1]; decide
    have hnh12 : ¬ r.p = schemaUrl := by rw [h1]; decide
    have hnh13 : ¬ r.p = schemaAuthor := by rw [h1]; decide
    have hnh14 : ¬ r.p = schemaPublisher := by rw [h1]; decide
    have hnh15 : ¬ r.p = schemaImage := by rw [h1]; decide
    have hnh16 : ¬ r.p = schemaThumbnail := by rw [h1]; decide
    have hnh17 : ¬ r.p = schemaAudio := by rw [h1]; decide
    have hnh18 : ¬ r.p = schemaVideo := by rw [h1]; decide
    have hnh19 : ¬ r.p = schemaEditor := by rw [h1]; decide
    have hnh20 : ¬ r.p = schemaDateCreated := by rw [h1]; decide
    simp only [if_pos h1, if_neg hnh2, if_neg hnh3, if_neg hnh4, if_neg hnh5, if_neg hnh6, if_neg hnh7, if_neg hnh8, if_neg hnh9, if_neg hnh10, if_neg hnh11, if_neg hnh12, if_neg hnh13, if_neg hnh14, if_neg hnh15, if_neg hnh16, if_neg hnh17, if_neg hnh18, if_neg hnh19, if_neg hnh20]
    and_intros <;> trivial
  by_cases h2 : r.p = schemaHeadline
  case pos =>
    have hnh3 : ¬ r.p = schemaDatePublished := by rw [h2]; decide
    have hnh4 : ¬ r.p = schemaDateModified := by rw [h2]; decide
    have hnh5 : ¬ r.p = schemaArticleBody := by rw [h2]; decide
    have hnh6 : ¬ r.p = schemaWordCount := by rw [h2]; decide
    have hnh7 : ¬ r.p = schemaInLanguage := by rw [h2]; decide
    have hnh8 : ¬ r.p = schemaThumbnailUrl := by rw [h2]; decide
    have hnh9 : ¬ r.p = schemaArticleSection := by rw [h2]; decide
    have hnh10 : ¬ r.p = schemaAbstract := by rw [h2]; decide
    have hnh11 : ¬ r.p = schemaKeywords := by rw [h2]; decide
    have hnh12 : ¬ r.p = schemaUrl := by rw [h2]; decide
    have hnh13 : ¬ r.p = schemaAuthor := by rw [h2]; decide
    have hnh14 : ¬ r.p = schemaPublisher := by rw [h2]; decide
    have hnh15 : ¬ r.p = schemaImage := by rw [h2]; decide
    have hnh16 : ¬ r.p = schemaThumbnail := by rw [h2]; decide
    have hnh17 : ¬ r.p = schemaAudio := by rw [h2]; decide
    have hnh18 : ¬ r.p = schemaVideo := by rw [h2]; decide
    have hnh19 : ¬ r.p = schemaEditor := by rw [h2]; decide
    have hnh20 : ¬ r.p = schemaDateCreated := by rw [h2]; decide
    simp only [if_pos h2, if_neg h1, if_neg hnh3, if_neg hnh4, if_neg hnh5, if_neg hnh6, if_neg hnh7, if_neg hnh8, if_neg hnh9, if_neg hnh10, if_neg hnh11, if_neg hnh12, if_neg hnh13, if_neg hnh14, if_neg hnh15, if_neg hnh16, if_neg hnh17, if_neg hnh18, if_neg hnh19, if_neg hnh20]
    and_intros <;> trivial
  by_cases h3 : r.p = schemaDatePublished
  case pos =>
    have hnh4 : ¬ r.p = schemaDateModified := by rw [h3]; decide
    have hnh5 : ¬ r.p = schemaArticleBody := by rw [h3]; decide
    have hnh6 : ¬ r.p = schemaWordCount := by rw [h3]; decide
    have hnh7 : ¬ r.p = schemaInLanguage := by rw [h3]; decide
    have hnh8 : ¬ r.p = schemaThumbnailUrl := by rw [h3]; decide
    have hnh9 : ¬ r.p = schemaArticleSection := by rw [h3]; decide
    have hnh10 : ¬ r.p = schemaAbstract := by rw [h3]; decide
    have hnh11 : ¬ r.p = schemaKeywords := by rw [h3]; decide
    have hnh12 : ¬ r.p = schemaUrl := by rw [h3]; decide
    have hnh13 : ¬ r.p = schemaAuthor := by rw [h3]; decide
    have hnh14 : ¬ r.p = schemaPublisher := by rw [h3]; decide
    have hnh15 : ¬ r.p = schemaImage := by rw [h3]; decide
    have hnh16 : ¬ r.p = schemaThumbnail := by rw [h3]; decide
    have hnh17 : ¬ r.p = schemaAudio := by rw [h3]; decide
    have hnh18 : ¬ r.p = schemaVideo := by rw [h3]; decide
    have hnh19 : ¬ r.p = schemaEditor := by rw [h3]; decide
    have hnh20 : ¬ r.p = schemaDateCreated := by rw [h3]; decide
    simp only [if_pos h3, if_neg h1, if_neg h2, if_neg hnh4, if_neg hnh5, if_neg hnh6, if_neg hnh7, if_neg hnh8, if_neg hnh9, if_neg hnh10, if_neg hnh11, if_neg hnh12, if_neg hnh13, if_neg hnh14, if_neg hnh15, if_neg hnh16, if_neg hnh17, if_neg hnh18, if_neg hnh19, if_neg hnh20]
    and_intros <;> trivial
  by_cases h4 : r.p = schemaDateModified
  case pos =>
    have hnh5 : ¬ r.p = schemaArticleBody := by rw [h4]; decide
    have hnh6 : ¬ r.p = schemaWordCount := by rw [h4]; decide
    have hnh7 : ¬ r.p = schemaInLanguage := by rw [h4]; decide
    have hnh8 : ¬ r.p = schemaThumbnailUrl := by rw [h4]; decide
    have hnh9 : ¬ r.p = schemaArticleSection := by rw [h4]; decide
    have hnh10 : ¬ r.p = schemaAbstract := by rw [h4]; decide
    have hnh11 : ¬ r.p = schemaKeywords := by rw [h4]; decide
    have hnh12 : ¬ r.p = schemaUrl := by rw [h4]; decide
    have hnh13 : ¬ r.p = schemaAuthor := by rw [h4]; decide
    have hnh14 : ¬ r.p = schemaPublisher := by rw [h4]; decide
    have hnh15 : ¬ r.p = schemaImage := by rw [h4]; decide
    have hnh16 : ¬ r.p = schemaThumbnail := by rw [h4]; decide
    have hnh17 : ¬ r.p = schemaAudio := by rw [h4]; decide
    have hnh18 : ¬ r.p = schemaVideo := by rw [h4]; decide
    have hnh19 : ¬ r.p = schemaEditor := by rw [h4]; decide
    have hnh20 : ¬ r.p = schemaDateCreated := by rw [h4]; decide
    simp only [if_pos h4, if_neg h1, if_neg h2, if_neg h3, if_neg hnh5, if_neg hnh6, if_neg hnh7, if_neg hnh8, if_neg hnh9, if_neg hnh10, if_neg hnh11, if_neg hnh12, if_neg hnh13, if_neg hnh14, if_neg hnh15, if_neg hnh16, if_neg hnh17, if_neg hnh18, if_neg hnh19, if_neg hnh20]
    and_intros <;> trivial
  by_cases h5 : r.p = schemaArticleBody
  case pos =>
    have hnh6 : ¬ r.p = schemaWordCount := by rw [h5]; decide
    have hnh7 : ¬ r.p = schemaInLanguage := by rw [h5]; decide
    have hnh8 : ¬ r.p = schemaThumbnailUrl := by rw [h5]; decide
    have hnh9 : ¬ r.p = schemaArticleSection := by rw [h5]; decide
    have hnh10 : ¬ r.p = schemaAbstract := by rw [h5]; decide
    have hnh11 : ¬ r.p = schemaKeywords := by rw [h5]; decide
    have hnh12 : ¬ r.p = schemaUrl := by rw [h5]; decide
    have hnh13 : ¬ r.p = schemaAuthor := by rw [h5]; decide
    have hnh14 : ¬ r.p = schemaPublisher := by rw [h5]; decide
    have hnh15 : ¬ r.p = schemaImage := by rw [h5]; decide
    have hnh16 : ¬ r.p = schemaThumbnail := by rw [h5]; decide
    have hnh17 : ¬ r.p = schemaAudio := by rw [h5]; decide
    have hnh18 : ¬ r.p = schemaVideo := by rw [h5]; decide
    have hnh19 : ¬ r.p = schemaEditor := by rw [h5]; decide
    have hnh20 : ¬ r.p = schemaDateCreated := by rw [h5]; decide
    simp only [if_pos h5, if_neg h1, if_neg h2, if_neg h3, if_neg h4, if_neg hnh6, if_neg hnh7, if_neg hnh8, if_neg hnh9, if_neg hnh10, if_neg hnh11, if_neg hnh12, if_neg hnh13, if_neg hnh14, if_neg hnh15, if_neg hnh16, if_neg hnh17, if_neg hnh18, if_neg hnh19, if_neg hnh20]
    and_intros <;> trivial
  by_cases h6 : r.p = schemaWordCount
  case pos =>
    have hnh7 : ¬ r.p = schemaInLanguage := by rw [h6]; decide
    have hnh8 : ¬ r.p = schemaThumbnailUrl := by rw [h6]; decide
    have hnh9 : ¬ r.p = schemaArticleSection := by rw [h6]; decide
    have hnh10 : ¬ r.p = schemaAbstract := by rw [h6]; decide
    have hnh11 : ¬ r.p = schemaKeywords := by rw [h6]; decide
    have hnh12 : ¬ r.p = schemaUrl := by rw [h6]; decide
    have hnh13 : ¬ r.p = schemaAuthor := by rw [h6]; decide
    have hnh14 : ¬ r.p = schemaPublisher := by rw [h6]; decide
    have hnh15 : ¬ r.p = schemaImage := by rw [h6]; decide
    have hnh16 : ¬ r.p = schemaThumbnail := by rw [h6]; decide
    have hnh17 : ¬ r.p = schemaAudio := by rw [h6]; decide
    have hnh18 : ¬ r.p = schemaVideo := by rw [h6]; decide
    have hnh19 : ¬ r.p = schemaEditor := by rw [h6]; decide
    have hnh20 : ¬ r.p = schemaDateCreated := by rw [h6]; decide
    simp only [if_pos h6, if_neg h1, if_neg h2, if_neg h3, if_neg h4, if_neg h5, if_neg hnh7, if_neg hnh8, if_neg hnh9, if_neg hnh10, if_neg hnh11, if_neg hnh12, if_neg hnh13, if_neg hnh14, if_neg hnh15, if_neg hnh16, if_neg hnh17, if_neg hnh18, if_neg hnh19, if_neg hnh20]
    cases hw : pyInt? r.o <;> (and_intros <;> trivial)
  by_cases h7 : r.p = schemaInLanguage
  case pos =>
    have hnh8 : ¬ r.p = schemaThumbnailUrl := by rw [h7]; decide
    have hnh9 : ¬ r.p = schemaArticleSection := by rw [h7]; decide
    have hnh10 : ¬ r.p = schemaAbstract := by rw [h7]; decide
    have hnh11 : ¬ r.p = schemaKeywords := by rw [h7]; decide
    have hnh12 : ¬ r.p = schemaUrl := by rw [h7]; decide
    have hnh13 : ¬ r.p = schemaAuthor := by rw [h7]; decide
    have hnh14 : ¬ r.p = schemaPublisher := by rw [h7]; decide
    have hnh15 : ¬ r.p = schemaImage := by rw [h7]; decide
    have hnh16 : ¬ r.p = schemaThumbnail := by rw [h7]; decide
    have hnh17 : ¬ r.p = schemaAudio := by rw [h7]; decide
    have hnh18 : ¬ r.p = schemaVideo := by rw [h7]; decide
    have hnh19 : ¬ r.p = schemaEditor := by rw [h7]; decide
    have hnh20 : ¬ r.p = schemaDateCreated := by rw [h7]; decide
    simp only [if_pos h7, if_neg h1, if_neg h2, if_neg h3, if_neg h4, if_neg h5, if_neg h6, if_neg hnh8, if_neg hnh9, if_neg hnh10, if_neg hnh11, if_neg hnh12, if_neg hnh13, if_neg hnh14, if_neg hnh15, if_neg hnh16, if_neg hnh17, if_neg hnh18, if_neg hnh19, if_neg hnh20]
    and_intros <;> trivial
  by_cases h8 : r.p = schemaThumbnailUrl
  case pos =>
    have hnh9 : ¬ r.p = schemaArticleSection := by rw [h8]; decide
    have hnh10 : ¬ r.p = schemaAbstract := by rw [h8]; decide
    have hnh11 : ¬ r.p = schemaKeywords := by rw [h8]; decide
    have hnh12 : ¬ r.p = schemaUrl := by rw [h8]; decide
    have hnh13 : ¬ r.p = schemaAuthor := by rw [h8]; decide
    have hnh14 : ¬ r.p = schemaPublisher := by rw [h8]; decide
    have hnh15 : ¬ r.p = schemaImage := by rw [h8]; decide
    have hnh16 : ¬ r.p = schemaThumbnail := by rw [h8]; decide
    have hnh17 : ¬ r.p = schemaAudio := by rw [h8]; decide
    have hnh18 : ¬ r.p = schemaVideo := by rw [h8]; decide
    have hnh19 : ¬ r.p = schemaEditor := by rw [h8]; decide
    have hnh20 : ¬ r.p = schemaDateCreated := by rw [h8]; decide
    simp only [if_pos h8, if_neg h1, if_neg h2, if_neg h3, if_neg h4, if_neg h5, if_neg h6, if_neg h7, if_neg hnh9, if_neg hnh10, if_neg hnh11, if_neg hnh12, if_neg hnh13, if_neg hnh14, if_neg hnh15, if_neg hnh16, if_neg hnh17, if_neg hnh18, if_neg hnh19, if_neg hnh20]
    and_intros <;> trivial
  by_cases h9 : r.p = schemaArticleSection
  case pos =>
    have hnh10 : ¬ r.p = schemaAbstract := by rw [h9]; decide
    have hnh11 : ¬ r.p = schemaKeywords := by rw [h9]; decide
    have hnh12 : ¬ r.p = schemaUrl := by rw [h9]; decide
    have hnh13 : ¬ r.p = schemaAuthor := by rw [h9]; decide
    have hnh14 : ¬ r.p = schemaPublisher := by rw [h9]; decide
    have hnh15 : ¬ r.p = schemaImage := by rw [h9]; decide
    have hnh16 : ¬ r.p = schemaThumbnail := by rw [h9]; decide
    have hnh17 : ¬ r.p = schemaAudio := by rw [h9]; decide
    have hnh18 : ¬ r.p = schemaVideo := by rw [h9]; decide
    have hnh19 : ¬ r.p = schemaEditor := by rw [h9]; decide
    have hnh20 : ¬ r.p = schemaDateCreated := by rw [h9]; decide
    simp only [if_pos h9, if_neg h1, if_neg h2, if_neg h3, if_neg h4, if_neg h5, if_neg h6, if_neg h7, if_neg h8, if_neg hnh10, if_neg hnh11, if_neg hnh12, if_neg hnh13, if_neg hnh14, if_neg hnh15, if_neg hnh16, if_neg hnh17, if_neg hnh18, if_neg hnh19, if_neg hnh20]
    and_intros <;> trivial
  by_cases h10 : r.p = schemaAbstract
  case pos =>
    have hnh11 : ¬ r.p = schemaKeywords := by rw [h10]; decide
    have hnh12 : ¬ r.p = schemaUrl := by rw [h10]; decide
    have hnh13 : ¬ r.p = schemaAuthor := by rw [h10]; decide
    have hnh14 : ¬ r.p = schemaPublisher := by rw [h10]; decide
    have hnh15 : ¬ r.p = schemaImage := by rw [h10]; decide
    have hnh16 : ¬ r.p = schemaThumbnail := by rw [h10]; decide
    have hnh17 : ¬ r.p = schemaAudio := by rw [h10]; decide
    have hnh18 : ¬ r.p = schemaVideo := by rw [h10]; decide
    have hnh19 : ¬ r.p = schemaEditor := by rw [h10]; decide
    have hnh20 : ¬ r.p = schemaDateCreated := by rw [h10]; decide
    simp only [if_pos h10, if_neg h1, if_neg h2, if_neg h3, if_neg h4, if_neg h5, if_neg h6, if_neg h7, if_neg h8, if_neg h9, if_neg hnh11, if_neg hnh12, if_neg hnh13, if_neg hnh14, if_neg hnh15, if_neg hnh16, if_neg hnh17, if_neg hnh18, if_neg hnh19, if_neg hnh20]
    and_intros <;> trivial
  by_cases h11 : r.p = schemaKeywords
  case pos =>
    have hnh12 : ¬ r.p = schemaUrl := by rw [h11]; decide
    have hnh13 : ¬ r.p = schemaAuthor := by rw [h11]; decide
    have hnh14 : ¬ r.p = schemaPublisher := by rw [h11]; decide
    have hnh15 : ¬ r.p = schemaImage := by rw [h11]; decide
    have hnh16 : ¬ r.p = schemaThumbnail := by rw [h11]; decide
    have hnh17 : ¬ r.p = schemaAudio := by rw [h11]; decide
    have hnh18 : ¬ r.p = schemaVideo := by rw [h11]; decide
    have hnh19 : ¬ r.p = schemaEditor := by rw [h11]; decide
    have hnh20 : ¬ r.p = schemaDateCreated := by rw [h11]; decide
    simp only [if_pos h11, if_neg h1, if_neg h2, if_neg h3, if_neg h4, if_neg h5, if_neg h6, if_neg h7, if_neg h8, if_neg h9, if_neg h10, if_neg hnh12, if_neg hnh13, if_neg hnh14, if_neg hnh15, if_neg hnh16, if_neg hnh17, if_neg hnh18, if_neg hnh19, if_neg hnh20]
    and_intros <;> trivial
  by_cases h12 : r.p = schemaUrl
  case pos =>
    have hnh13 : ¬ r.p = schemaAuthor := by rw [h12]; decide
    have hnh14 : ¬ r.p = schemaPublisher := by rw [h12]; decide
    have hnh15 : ¬ r.p = schemaImage := by rw [h12]; decide
    have hnh16 : ¬ r.p = schemaThumbnail := by rw [h12]; decide
    have hnh17 : ¬ r.p = schemaAudio := by rw [h12]; decide
    have hnh18 : ¬ r.p = schemaVideo := by rw [h12]; decide
    have hnh19 : ¬ r.p = schemaEditor := by rw [h12]; decide
    have hnh20 : ¬ r.p = schemaDateCreated := by rw [h12]; decide
    simp only [if_pos h12, if_neg h1, if_neg h2, if_neg h3, if_neg h4, if_neg h5, if_neg h6, if_neg h7, if_neg h8, if_neg h9, if_neg h10, if_neg h11, if_neg hnh13, if_neg hnh14, if_neg hnh15, if_neg hnh16, if_neg hnh17, if_neg hnh18, if_neg hnh19, if_neg hnh20]
    and_intros <;> trivial
  by_cases h13 : r.p = schemaAuthor
  case pos =>
    have hnh14 : ¬ r.p = schemaPublisher := by rw [h13]; decide
    have hnh15 : ¬ r.p = schemaImage := by rw [h13]; decide
    have hnh16 : ¬ r.p = schemaThumbnail := by rw [h13]; decide
    have hnh17 : ¬ r.p = schemaAudio := by rw [h13]; decide
    have hnh18 : ¬ r.p = schemaVideo := by rw [h13]; decide
    have hnh19 : ¬ r.p = schemaEditor := by rw [h13]; decide
    have hnh20 : ¬ r.p = schemaDateCreated := by rw [h13]; decide
    simp only [if_pos h13, if_neg h1, if_neg h2, if_neg h3, if_neg h4, if_neg h5, if_neg h6, if_neg h7, if_neg h8, if_neg h9, if_neg h10, if_neg h11, if_neg h12, if_neg hnh14, if_neg hnh15, if_neg hnh16, if_neg hnh17, if_neg hnh18, if_neg hnh19, if_neg hnh20]
    by_cases hsub : r.subP = some schemaType
    · by_cases hmem : builtAgent r results ∈ art.author
      · simp only [if_pos hsub, if_pos hmem]
        and_intros <;> trivial
      · simp only [if_pos hsub, if_neg hmem]
        and_intros <;> trivial
    · simp only [if_neg hsub]
      and_intros <;> trivial
  by_cases h14 : r.p = schemaPublisher
  case pos =>
    have hnh15 : ¬ r.p = schemaImage := by rw [h14]; decide
    have hnh16 : ¬ r.p = schemaThumbnail := by rw [h14]; decide
    have hnh17 : ¬ r.p = schemaAudio := by rw [h14]; decide
    have hnh18 : ¬ r.p = schemaVideo := by rw [h14]; decide
    have hnh19 : ¬ r.p = schemaEditor := by rw [h14]; decide
    have hnh20 : ¬ r.p = schemaDateCreated := by rw [h14]; decide
    simp only [if_pos h14, if_neg h1, if_neg h2, if_neg h3, if_neg h4, if_neg h5, if_neg h6, if_neg h7, if_neg h8, if_neg h9, if_neg h10, if_neg h11, if_neg h12, if_neg h13, if_neg hnh15, if_neg hnh16, if_neg hnh17, if_neg hnh18, if_neg hnh19, if_neg hnh20]
    by_cases hsub : r.subP = some schemaType
    · by_cases hmem : builtAgent r results ∈ art.publisher ∨
          builtAgent r results = AgentData.emptyAgent
      · simp only [if_pos hsub, if_pos hmem]
        and_intros <;> trivial
      · simp only [if_pos hsub, if_neg hmem]
        and_intros <;> trivial
    · simp only [if_neg hsub]
      and_intros <;> trivial
  by_cases h15 : r.p = schemaImage
  case pos =>
    have hnh16 : ¬ r.p = schemaThumbnail := by rw [h15]; decide
    have hnh17 : ¬ r.p = schemaAudio := by rw [h15]; decide
    have hnh18 : ¬ r.p = schemaVideo := by rw [h15]; decide
    have hnh19 : ¬ r.p = schemaEditor := by rw [h15]; decide
    have hnh20 : ¬ r.p = schemaDateCreated := by rw [h15]; decide
    simp only [if_pos h15, if_neg h1, if_neg h2, if_neg h3, if_neg h4, if_neg h5, if_neg h6, if_neg h7, if_neg h8, if_neg h9, if_neg h10, if_neg h11, if_neg h12, if_neg h13, if_neg h14, if_neg hnh16, if_neg hnh17, if_neg hnh18, if_neg hnh19, if_neg hnh20]
    cases himg : populateImageData r results with
    | ok d =>
      by_cases hmem : d ∈ art.image
      · simp only [if_pos hmem]
        and_intros <;> trivial
      · simp only [if_neg hmem]
        and_intros <;> trivial
    | error e =>
      and_intros <;> trivial
  by_cases h16 : r.p = schemaThumbnail
  case pos =>
    have hnh17 : ¬ r.p = schemaAudio := by rw [h16]; decide
    have hnh18 : ¬ r.p = schemaVideo := by rw [h16]; decide
    have hnh19 : ¬ r.p = schemaEditor := by rw [h16]; decide
    have hnh20 : ¬ r.p = schemaDateCreated := by rw [h16]; decide
    simp only [if_pos h16, if_neg h1, if_neg h2, if_neg h3, if_neg h4, if_neg h5, if_neg h6, if_neg h7, if_neg h8, if_neg h9, if_neg h10, if_neg h11, if_neg h12, if_neg h13, if_neg h14, if_neg h15, if_neg hnh17, if_neg hnh18, if_neg hnh19, if_neg hnh20]
    cases himg : populateImageData r results <;> (and_intros <;> trivial)
  by_cases h17 : r.p = schemaAudio
  case pos =>
    have hnh18 : ¬ r.p = schemaVideo := by rw [h17]; decide
    have hnh19 : ¬ r.p = schemaEditor := by rw [h17]; decide
    have hnh20 : ¬ r.p = schemaDateCreated := by rw [h17]; decide
    simp only [if_pos h17, if_neg h1, if_neg h2, if_neg h3, if_neg h4, if_neg h5, if_neg h6, if_neg h7, if_neg h8, if_neg h9, if_neg h10, if_neg h11, if_neg h12, if_neg h13, if_neg h14, if_neg h15, if_neg h16, if_neg hnh18, if_neg hnh19, if_neg hnh20]
    and_intros <;> trivial
  by_cases h18 : r.p = schemaVideo
  case pos =>
    have hnh19 : ¬ r.p = schemaEditor := by rw [h18]; decide
    have hnh20 : ¬ r.p = schemaDateCreated := by rw [h18]; decide
    simp only [if_pos h18, if_neg h1, if_neg h2, if_neg h3, if_neg h4, if_neg h5, if_neg h6, if_neg h7, if_neg h8, if_neg h9, if_neg h10, if_neg h11, if_neg h12, if_neg h13, if_neg h14, if_neg h15, if_neg h16, if_neg h17, if_neg hnh19, if_neg hnh20]
    and_intros <;> trivial
  by_cases h19 : r.p = schemaEditor
  case pos =>
    have hnh20 : ¬ r.p = schemaDateCreated := by rw [h19]; decide
    simp only [if_pos h19, if_neg h1, if_neg h2, if_neg h3, if_neg h4, if_neg h5, if_neg h6, if_neg h7, if_neg h8, if_neg h9, if_neg h10, if_neg h11, if_neg h12, if_neg h13, if_neg h14, if_neg h15, if_neg h16, if_neg h17, if_neg h18, if_neg hnh20]
    and_intros <;> trivial
  by_cases h20 : r.p = schemaDateCreated
  case pos =>
    simp only [if_pos h20, if_neg h1, if_neg h2, if_neg h3, if_neg h4, if_neg h5, if_neg h6, if_neg h7, if_neg h8, if_neg h9, if_neg h10, if_neg h11, if_neg h12, if_neg h13, if_neg h14, if_neg h15, if_neg h16, if_neg h17, if_neg h18, if_neg h19]
    and_intros <;> trivial
  simp only [if_neg h1, if_neg h2, if_neg h3, if_neg h4, if_neg h5, if_neg h6, if_neg h7, if_neg h8, if_neg h9, if_neg h10, if_neg h11, if_neg h12, if_neg h13, if_neg h14, if_neg h15, if_neg h16, if_neg h17, if_neg h18, if_neg h19, if_neg h20]
  and_intros <;> trivial

/-!
## Stable descending sort

Python's `sorted(..., key=..., reverse=True)` is a stable sort: the result is
non-increasing in the key and elements with equal keys keep their input
order.  That behaviour determines the output uniquely, and the insertion
sort below implements it: an element is inserted after every
already-placed element whose key is strictly larger (already-placed elements
come later in the input, so on a key tie the earlier element stays first).
-/

/-- Insert `x` into `l` after every element with strictly larger key. -/
def insertDesc {α β : Type} [LinearOrder β] (key : α → β) (x : α) : List α → List α
  | [] => [x]
  | y :: ys => if key x < key y then y :: insertDesc key x ys else x :: y :: ys

/-- Stable descending insertion sort on `key`. -/
def sortDesc {α β : Type} [LinearOrder β] (key : α → β) : List α → List α
  | [] => []
  | x :: xs => insertDesc key x (sortDesc key xs)

/-!
## Preference extraction (`_extract_user_preferences`)
-/

/-- The preference dictionary.  `keywords` is `none` for the initial `[]`
placeholder (an empty list and `None` are interchangeable downstream: both
are falsy).  The two date bounds hold normalized date strings; see
`extractUserPreferences` for the modelling note. -/
structure Preferences where
  keywords : Option String
  wordcountMin : Option Int
  wordcountMax : Option Int
  authorName : Option String
  publisher : Option String
  datePublishedMin : Option String
  datePublishedMax : Option String
deriving DecidableEq

/-- `np.percentile(l, q)` with the default linear interpolation (numpy is an
external library; this is its documented `linear` method for an integer
percent `q`): sort the values, take the virtual index `h = (n-1)·q/100`,
whose floor `i` is the Nat division `(n-1)·q / 100` since everything is
non-negative, and interpolate between the order statistics at `i` and `i+1`
with fraction `h - i`.  Empty input is never passed by the source, which
guards with `if word_counts:`; it is mapped to 0 here. -/
def npPercentile (l : List Int) (q : ℕ) : ℚ :=
  let s := sortDesc (fun x : Int => -x) l
  let n := s.length
  let i : ℕ := (n - 1) * q / 100
  let frac : ℚ := (((n - 1) * q : ℕ) : ℚ) / 100 - (i : ℚ)
  let lo : ℚ := ((s.get? i).getD 0 : Int)
  let hi : ℚ := ((s.get? (i + 1)).getD ((s.get? i).getD 0) : Int)
  lo + frac * (hi - lo)

/-- Python's `int(float)` conversion: truncation toward zero. -/
def pyTrunc (x : ℚ) : Int := if 0 ≤ x then ⌊x⌋ else ⌈x⌉

/-- The name a history agent contributes: the comprehension
`[author['name'] for author in article['author'] if author.get('name')]`
keeps only truthy (present and non-empty) names. -/
def agentTruthyName (a : AgentData) : Option String :=
  match a with
  | .emptyAgent => none
  | .person d => match d.name with
    | some n => if n = "" then none else some n
    | none => none
  | .org d => match d.name with
    | some n => if n = "" then none else some n
    | none => none

/-- Insertion-ordered list of distinct elements, the key order of a Python
`Counter` built by repeated insertion. -/
def firstOccurrences (l : List String) : List String :=
  l.foldl (fun acc x => if x ∈ acc then acc else acc ++ [x]) []

/-- `Counter(l).most_common(k)`: distinct elements sorted by count
descending, ties kept in first-insertion order (CPython's `most_common` is a
stable sort on the insertion-ordered items), truncated to `k`. -/
def mostCommon (l : List String) (k : ℕ) : List String :=
  (sortDesc (fun x => l.count x) (firstOccurrences l)).take k

/-- `datetime.fromisoformat(value.replace('Z', '+00:00'))` normalizes a
trailing UTC `Z`.  `String.replace` replaces every occurrence, as Python's
`str.replace` does. -/
def normalizeDate (s : String) : String := s.replace "Z" "+00:00"

/-- Modelled from the spec: validity of `datetime.fromisoformat` (standard
library behaviour outside this repository, spec section 4.2: "min/max over
all parseable `datePublished` values (ISO-8601 ...); unparsable dates are
skipped and logged").  The model accepts strings with a `YYYY-MM-DD` shaped
prefix; comparison of the accepted values uses lexicographic string order,
which agrees with chronological order on uniformly formatted ISO strings.
No claim in this development depends on the precise parse or order: the date
bounds only flow opaquely into the candidate-source filters. -/
def isoParsable (s : String) : Bool :=
  let cs := s.toList
  decide (cs.length ≥ 10) &&
    (cs.take 4).all Char.isDigit && decide (cs.get? 4 = some '-') &&
    ((cs.drop 5).take 2).all Char.isDigit && decide (cs.get? 7 = some '-') &&
    ((cs.drop 8).take 2).all Char.isDigit

/-- The word counts collected from the viewed articles:
`if article.get('wordCount'):` keeps only present, non-zero values
(Python truthiness). -/
def collectedWordCounts (viewedArticles : List ArticleData) : List Int :=
  viewedArticles.filterMap (fun a =>
    match a.wordCount with
    | some w => if w = 0 then none else some w
    | none => none)

/-- The keyword tokens collected from the viewed articles.  Articles built by
`populate_article_data` always store `keywords` as a list, so the
`isinstance(..., str)` split branch of the source is not exercised; a falsy
(empty) list contributes nothing either way. -/
def collectedKeywords (viewedArticles : List ArticleData) : List String :=
  viewedArticles.flatMap (fun a => a.keywords)

/-- The truthy author names collected from the viewed articles (the
`author` field of a materialized article is always a list, so the
`isinstance(..., dict)` branch of the source is not exercised). -/
def collectedAuthors (viewedArticles : List ArticleData) : List String :=
  viewedArticles.flatMap (fun a => a.author.filterMap agentTruthyName)

/-- The truthy publisher names collected from the viewed articles. -/
def collectedPublishers (viewedArticles : List ArticleData) : List String :=
  viewedArticles.flatMap (fun a => a.publisher.filterMap agentTruthyName)

/-- The normalized parseable publish dates collected from the viewed
articles. -/
def collectedDates (viewedArticles : List ArticleData) : List String :=
  viewedArticles.filterMap (fun a =>
    match a.datePublished with
    | some d =>
      if d = "" then none
      else if isoParsable (normalizeDate d) then some (normalizeDate d) else none
    | none => none)

/-- `_extract_user_preferences(self, viewed_articles)`. -/
def extractUserPreferences (viewedArticles : List ArticleData) : Preferences :=
  let wordCounts := collectedWordCounts viewedArticles
  let datesPublished := collectedDates viewedArticles
  let keywords := collectedKeywords viewedArticles
  let authors := collectedAuthors viewedArticles
  let publishers := collectedPublishers viewedArticles
  { keywords :=
      if keywords = [] then none
      else some (String.intercalate " " (mostCommon keywords 10))
    wordcountMin :=
      if wordCounts = [] then none else some (pyTrunc (npPercentile wordCounts 25))
    wordcountMax :=
      if wordCounts = [] then none else some (pyTrunc (npPercentile wordCounts 75))
    authorName := if authors = [] then none else (mostCommon authors 1).head?
    publisher := if publishers = [] then none else (mostCommon publishers 1).head?
    datePublishedMin :=
      match datesPublished with
      | [] => none
      | d :: ds => some (ds.foldl min d)
    datePublishedMax :=
      match datesPublished with
      | [] => none
      | d :: ds => some (ds.foldl max d) }

/-!
## Candidate articles and the ranking engine
-/

/-- The dynamically-typed `author` / `publisher` field of a candidate
dictionary as `_calculate_metadata_similarity` discriminates it:
absent, a plain string (the shape produced by the search post-processing,
`result.get('author', '')`), a single agent dictionary, or a list of agent
dictionaries (the shape produced by `populate_article_data`). -/
inductive AgentField
  | absent
  | str (s : String)
  | agent (a : AgentData)
  | agents (l : List AgentData)
deriving DecidableEq

/-- Python truthiness of an `article.get('author')` value:
`None`, `''` and `[]` are falsy; any dictionary here has a fixed non-empty
key set and is truthy. -/
def AgentField.truthy : AgentField → Bool
  | .absent => false
  | .str s => s ≠ ""
  | .agent _ => true
  | .agents l => l ≠ []

/-- The `name` entry of an agent dictionary (`author.get('name')`). -/
def agentName : AgentData → Option String
  | .emptyAgent => none
  | .person d => d.name
  | .org d => d.name

/-- A candidate article dictionary as consumed by `_rank_articles` and
`_calculate_metadata_similarity`.  The search post-processing
(`search_advanced_exact_match` / `search_advanced_partial_match`) produces
string-valued `author`/`publisher`/`headline`/`abstract` with default `''`,
`keywords` equal to the searched keyword list, and no `wordCount` key at
all. -/
structure CandArticle where
  url : String
  headline : String
  abstract : String
  author : AgentField
  publisher : AgentField
  datePublished : String
  thumbnailUrl : String
  keywords : List String
  wordCount : Option Int
deriving DecidableEq

/-- Truthiness of an optional preference string (`preferences.get(...)`). -/
def truthyStr : Option String → Bool
  | some s => s ≠ ""
  | none => false

/-- Truthiness of an optional preference integer. -/
def truthyInt : Option Int → Bool
  | some n => n ≠ 0
  | none => false

/-- The author condition of `_calculate_metadata_similarity`: the article's
author field and the preferred author name are truthy, and the field is a
list one of whose members has `name` equal to the preferred name, or a
single dictionary whose `name` equals it.  A plain-string author field falls
through both `isinstance` branches and never matches. -/
def authorFieldMatches (field : AgentField) (preferred : Option String) : Bool :=
  field.truthy && truthyStr preferred &&
    (match field with
     | .agents l => l.any (fun a => agentName a = preferred)
     | .agent a => agentName a = preferred
     | _ => false)

/-- `_calculate_metadata_similarity(self, article, preferences)`:
`score = 0.0`, then `+0.3` on the author branch, `+0.3` on the publisher
branch, and `+0.4` when the article word count and both preference bounds
are truthy and the count lies in the inclusive range. -/
def calculateMetadataSimilarity (article : CandArticle) (preferences : Preferences) : ℚ :=
  (if authorFieldMatches article.author preferences.authorName then 3/10 else 0) +
  (if authorFieldMatches article.publisher preferences.publisher then 3/10 else 0) +
  (if truthyInt article.wordCount && truthyInt preferences.wordcountMin &&
      truthyInt preferences.wordcountMax &&
      decide (preferences.wordcountMin.getD 0 ≤ article.wordCount.getD 0 ∧
              article.wordCount.getD 0 ≤ preferences.wordcountMax.getD 0)
   then 2/5 else 0)

/-- `similarity_matrix[num_viewed:, :num_viewed].mean(axis=1)` for one
candidate row: the arithmetic mean of its cosine similarities to the viewed
texts (`ℚ` convention: the mean of an empty list is 0; the pipeline always
has at least one viewed text). -/
def meanSimilarity (sims : List ℚ) : ℚ := sims.sum / sims.length

/-- One scored candidate (`article_copy` with `similarity_score` and
`final_score` added). -/
structure ScoredArticle where
  article : CandArticle
  similarityScore : ℚ
  finalScore : ℚ
deriving DecidableEq

/-- The `scored_articles` list of `_rank_articles`: enumerate the candidates,
drop those whose `url` is in the user history, and attach
`similarity_score` and `final_score = 0.7 * similarity_score + 0.3 *
metadata_score`.  `pairwiseSims idx` stands for row `idx` of the cosine
similarity matrix of the TF-IDF vectorization (computed by an external
numerical library; its entries are constrained where a claim needs it). -/
def scoredArticlesOf (candidateArticles : List CandArticle) (preferences : Preferences)
    (userHistory : List String) (pairwiseSims : ℕ → List ℚ) : List ScoredArticle :=
  candidateArticles.enum.filterMap (fun p =>
    if p.2.url ∈ userHistory then none
    else
      let s := meanSimilarity (pairwiseSims p.1)
      some ⟨p.2, s, 7/10 * s + 3/10 * calculateMetadataSimilarity p.2 preferences⟩)

/-- `_rank_articles`: empty candidate list short-circuits to `[]`; otherwise
score, sort stably by `final_score` descending (`sorted(...,
key=lambda x: x.get('final_score', 0), reverse=True)`; every scored article
has the key) and truncate to `max_recommendations`.  The `except` branch of
the source (degenerate vectorization corpus) returns `[]` and is the
external library's failure, not reached by this success-path model. -/
def rankArticles (candidateArticles : List CandArticle) (preferences : Preferences)
    (userHistory : List String) (maxRecommendations : ℕ)
    (pairwiseSims : ℕ → List ℚ) : List ScoredArticle :=
  if candidateArticles = [] then []
  else
    ((sortDesc (fun sa : ScoredArticle => sa.finalScore)
        (scoredArticlesOf candidateArticles preferences userHistory pairwiseSims)).take
      maxRecommendations)

/-!
## Candidate retrieval and the HTTP boundary
-/

/-- The filter set passed to `advanced_search` by `_get_candidate_articles`
(the `wordcount`, `author_nationality` and `datePublished` parameters of
`advanced_search` are never passed there and stay `None`). -/
structure SearchFilters where
  keywords : Option String
  wordcountMin : Option Int
  wordcountMax : Option Int
  authorName : Option String
  publisher : Option String
  datePublishedMin : Option String
  datePublishedMax : Option String
  inLanguage : Option String
deriving DecidableEq

/-- The strict (first-attempt) filter set of `_get_candidate_articles`:
the full profile with `inLanguage=None`. -/
def strictFiltersOf (preferences : Preferences) : SearchFilters where
  keywords := preferences.keywords
  wordcountMin := preferences.wordcountMin
  wordcountMax := preferences.wordcountMax
  authorName := preferences.authorName
  publisher := preferences.publisher
  datePublishedMin := preferences.datePublishedMin
  datePublishedMax := preferences.datePublishedMax
  inLanguage := none

/-- The relaxed (second-attempt) filter set: `relaxed_preferences` is a copy
of the profile with `author_name` and `publisher` set to `None`, and the
relaxed call does not pass the author/publisher parameters (defaulting to
`None`). -/
def relaxedFiltersOf (preferences : Preferences) : SearchFilters where
  keywords := preferences.keywords
  wordcountMin := preferences.wordcountMin
  wordcountMax := preferences.wordcountMax
  authorName := none
  publisher := none
  datePublishedMin := preferences.datePublishedMin
  datePublishedMax := preferences.datePublishedMax
  inLanguage := none

/-- The outcome of one `requests.post` to the query endpoint: either a
response with a status code and the parsed binding rows of its JSON body, or
a raised `requests.exceptions.RequestException` (connection failure,
timeout, ...). -/
inductive HttpOutcome (β : Type)
  | response (status : ℕ) (bindings : β)
  | exception (msg : String)

/-- One binding row of the search queries
(`SELECT ?article ?headline ?abstract ?author ?publisher ?datePublished
?thumbnailUrl`): every variable is optionally bound. -/
structure SearchBinding where
  article : Option String
  headline : Option String
  abstract : Option String
  author : Option String
  publisher : Option String
  datePublished : Option String
  thumbnailUrl : Option String
deriving DecidableEq

/-- `execute_search_sparql_query(self, query)`: the `requests.post` call is
NOT wrapped in `try/except`, so a raised `RequestException` propagates to
the caller (`Except.error`); a response parses into article dictionaries
only when the status is 200, any other status yielding the empty list. -/
def executeSearchSparqlQuery (outcome : HttpOutcome (List SearchBinding)) :
    Except String (List SearchBinding) :=
  match outcome with
  | .exception msg => .error msg
  | .response status bindings => .ok (if status = 200 then bindings else [])

/-- `execute_sparql_query(self, query)`: the `requests.post` call IS wrapped
in `try/except requests.exceptions.RequestException`, which logs and returns
`[]`; `raise_for_status()` raises (and is caught) for 4xx/5xx statuses. -/
def executeSparqlQuery (outcome : HttpOutcome (List Row)) : List Row :=
  match outcome with
  | .exception _ => []
  | .response status bindings => if status < 400 then bindings else []

/-- The post-processing shared by `search_advanced_exact_match` and
`search_advanced_partial_match`: each raw binding row becomes a candidate
dictionary with `''` defaults and `keywords` set to the searched keyword
list (`preferences['keywords'].split()`); no `wordCount` key is produced. -/
def processSearchResults (rawResults : List SearchBinding) (keywordsList : List String) :
    List CandArticle :=
  rawResults.map (fun result =>
    { url := result.article.getD ""
      headline := result.headline.getD ""
      abstract := result.abstract.getD ""
      author := .str (result.author.getD "")
      publisher := .str (result.publisher.getD "")
      datePublished := result.datePublished.getD ""
      thumbnailUrl := result.thumbnailUrl.getD ""
      keywords := keywordsList
      wordCount := none })

/-- `advanced_search(...)` for one filter set, parameterized by the HTTP
outcomes of its exact-match and partial-match queries: try
`search_advanced_exact_match`, and if it yields no articles fall through to
`search_advanced_partial_match`.  An exception raised by
`execute_search_sparql_query` propagates. -/
def advancedSearch (filters : SearchFilters)
    (exactOutcome partialOutcome : HttpOutcome (List SearchBinding)) :
    Except String (List CandArticle) := do
  let keywordsList := (filters.keywords.getD "").splitOn " " |>.filter (fun w => w ≠ "")
  let exactRaw ← executeSearchSparqlQuery exactOutcome
  let exactMatches := processSearchResults exactRaw keywordsList
  if exactMatches ≠ [] then
    pure exactMatches
  else do
    let partialRaw ← executeSearchSparqlQuery partialOutcome
    pure (processSearchResults partialRaw keywordsList)

/-- `_get_candidate_articles(self, preferences)` over an abstract candidate
source (the boundary of spec section 4.3): call with the strict filter set;
if that raises, propagate; if it returns no articles, call once more with
the relaxed filter set. -/
def getCandidateArticles (search : SearchFilters → Except String (List CandArticle))
    (preferences : Preferences) : Except String (List CandArticle) := do
  let articles ← search (strictFiltersOf preferences)
  if articles = [] then
    search (relaxedFiltersOf preferences)
  else
    pure articles

/-- The sequence of filter sets `_get_candidate_articles` hands to the
candidate source, in call order (instrumentation of `getCandidateArticles`
for the retry-count property). -/
def candidateSearchCalls (search : SearchFilters → Except String (List CandArticle))
    (preferences : Preferences) : List SearchFilters :=
  match search (strictFiltersOf preferences) with
  | .ok [] => [strictFiltersOf preferences, relaxedFiltersOf preferences]
  | _ => [strictFiltersOf preferences]

/-- `get_recommendations(self, user_history, max_recommendations=10)`.
`get_article_by_url` catches every exception internally (its query executor
returns `[]` on failure and `populate_article_data` guards each tuple), and
the dictionary it returns is always truthy, so the viewed list has one entry
per history URL and is empty exactly for an empty history.  `rowsOf u`
stands for the binding rows the 2-hop query returns for URL `u`, and
`pairwiseSims` for the external cosine-similarity computation. -/
def getRecommendations (rowsOf : String → List Row)
    (search : SearchFilters → Except String (List CandArticle))
    (pairwiseSims : ℕ → List ℚ)
    (userHistory : List String) (maxRecommendations : ℕ) :
    Except String (List ScoredArticle) :=
  let viewedArticles := userHistory.map (fun u => populateArticleData (rowsOf u) u)
  if viewedArticles = [] then .ok []
  else do
    let preferences := extractUserPreferences viewedArticles
    let recommendedArticles ← getCandidateArticles search preferences
    pure (rankArticles recommendedArticles preferences userHistory
      maxRecommendations pairwiseSims)

/-!
## Lemmas about the stable descending sort
-/

theorem mem_insertDesc {α β : Type} [LinearOrder β] (key : α → β) (x a : α)
    (l : List α) : a ∈ insertDesc key x l ↔ a = x ∨ a ∈ l := by
  induction l with
  | nil => simp [insertDesc]
  | cons y ys ih =>
    simp only [insertDesc]
    split
    · rw [List.mem_cons, ih, List.mem_cons]
      tauto
    · simp only [List.mem_cons]

theorem perm_insertDesc {α β : Type} [LinearOrder β] (key : α → β) (x : α)
    (l : List α) : (insertDesc key x l).Perm (x :: l) := by
  induction l with
  | nil => simp [insertDesc]
  | cons y ys ih =>
    simp only [insertDesc]
    split
    · exact (ih.cons y).trans (List.Perm.swap x y ys)
    · exact List.Perm.refl _

theorem perm_sortDesc {α β : Type} [LinearOrder β] (key : α → β) (l : List α) :
    (sortDesc key l).Perm l := by
  induction l with
  | nil => exact List.Perm.refl _
  | cons x xs ih =>
    exact (perm_insertDesc key x (sortDesc key xs)).trans (ih.cons x)

theorem pairwise_insertDesc {α β : Type} [LinearOrder β] (key : α → β) (x : α)
    (l : List α) (h : l.Pairwise (fun a b => key b ≤ key a)) :
    (insertDesc key x l).Pairwise (fun a b => key b ≤ key a) := by
  induction l with
  | nil => simp [insertDesc]
  | cons y ys ih =>
    rw [List.pairwise_cons] at h
    obtain ⟨hy, hys⟩ := h
    simp only [insertDesc]
    split
    · rename_i hlt
      refine List.pairwise_cons.2 ⟨?_, ih hys⟩
      intro z hz
      rcases (mem_insertDesc key x z ys).1 hz with rfl | hz
      · exact le_of_lt hlt
      · exact hy z hz
    · rename_i hnlt
      push_neg at hnlt
      refine List.pairwise_cons.2 ⟨?_, List.pairwise_cons.2 ⟨hy, hys⟩⟩
      intro z hz
      rcases List.mem_cons.1 hz with rfl | hz
      · exact hnlt
      · exact le_trans (hy z hz) hnlt

theorem pairwise_sortDesc {α β : Type} [LinearOrder β] (key : α → β)
    (l : List α) : (sortDesc key l).Pairwise (fun a b => key b ≤ key a) := by
  induction l with
  | nil => simp [sortDesc]
  | cons x xs ih => exact pairwise_insertDesc key x _ ih

theorem filter_insertDesc {α β : Type} [LinearOrder β] (key : α → β) (x : α)
    (l : List α) (q : β) :
    (insertDesc key x l).filter (fun a => key a = q) =
      if key x = q then x :: l.filter (fun a => key a = q)
      else l.filter (fun a => key a = q) := by
  induction l with
  | nil => by_cases h : key x = q <;> simp [insertDesc, h]
  | cons y ys ih =>
    simp only [insertDesc]
    split
    · rename_i hlt
      by_cases hx : key x = q
      · have hy : ¬ key y = q := by
          intro hy
          rw [hx, hy] at hlt
          exact lt_irrefl q hlt
        simp [List.filter_cons, hx, hy, ih]
      · by_cases hy : key y = q <;> simp [List.filter_cons, hx, hy, ih]
    · by_cases hx : key x = q <;> by_cases hy : key y = q <;>
        simp [List.filter_cons, hx, hy]

theorem filter_sortDesc {α β : Type} [LinearOrder β] (key : α → β)
    (l : List α) (q : β) :
    (sortDesc key l).filter (fun a => key a = q) =
      l.filter (fun a => key a = q) := by
  induction l with
  | nil => rfl
  | cons x xs ih =>
    rw [sortDesc, filter_insertDesc]
    by_cases h : key x = q <;> simp [List.filter_cons, h, ih]

/-!
## C3, C4: ordering, truncation, stability, history exclusion
-/

/-- C3.  The output of `_rank_articles` is ordered non-increasingly by
`finalScore`, its length never exceeds `max_recommendations`, and the sort
is stable: for every score value, the output articles carrying that score
are an initial run of the scored candidates carrying it in candidate-input
order (so equal-score candidates retain their input order). -/
theorem rank_sorted_bounded_stable (candidateArticles : List CandArticle)
    (preferences : Preferences) (userHistory : List String)
    (maxRecommendations : ℕ) (pairwiseSims : ℕ → List ℚ) :
    (rankArticles candidateArticles preferences userHistory maxRecommendations
        pairwiseSims).Pairwise (fun a b => b.finalScore ≤ a.finalScore) ∧
    (rankArticles candidateArticles preferences userHistory maxRecommendations
        pairwiseSims).length ≤ maxRecommendations ∧
    ∀ q : ℚ, ∃ t,
      (scoredArticlesOf candidateArticles preferences userHistory
          pairwiseSims).filter (fun sa => sa.finalScore = q) =
        (rankArticles candidateArticles preferences userHistory
            maxRecommendations pairwiseSims).filter
          (fun sa => sa.finalScore = q) ++ t := by
  unfold rankArticles
  split
  · rename_i h
    subst h
    refine ⟨List.Pairwise.nil, by simp, fun q => ⟨[], by simp [scoredArticlesOf]⟩⟩
  · refine ⟨?_, List.length_take_le _ _, ?_⟩
    · exact (pairwise_sortDesc (fun sa : ScoredArticle => sa.finalScore)
        _).sublist (List.take_sublist _ _)
    · intro q
      refine ⟨((sortDesc (fun sa : ScoredArticle => sa.finalScore)
        (scoredArticlesOf candidateArticles preferences userHistory
          pairwiseSims)).drop maxRecommendations).filter
            (fun sa => sa.finalScore = q), ?_⟩
      rw [← filter_sortDesc (fun sa : ScoredArticle => sa.finalScore)]
      conv_lhs =>
        rw [← List.take_append_drop maxRecommendations
          (sortDesc (fun sa : ScoredArticle => sa.finalScore)
            (scoredArticlesOf candidateArticles preferences userHistory
              pairwiseSims))]
      rw [List.filter_append]

/-- C4.  A candidate whose `url` lies in the user's history is filtered out
before scoring and never appears in the output of `_rank_articles`. -/
theorem rank_excludes_history (candidateArticles : List CandArticle)
    (preferences : Preferences) (userHistory : List String)
    (maxRecommendations : ℕ) (pairwiseSims : ℕ → List ℚ)
    (sa : ScoredArticle)
    (hmem : sa ∈ rankArticles candidateArticles preferences userHistory
      maxRecommendations pairwiseSims) :
    sa.article.url ∉ userHistory := by
  unfold rankArticles at hmem
  split at hmem
  · exact absurd hmem (List.not_mem_nil sa)
  · have h1 : sa ∈ sortDesc (fun sa : ScoredArticle => sa.finalScore)
        (scoredArticlesOf candidateArticles preferences userHistory
          pairwiseSims) :=
      List.take_subset _ _ hmem
    have h2 : sa ∈ scoredArticlesOf candidateArticles preferences userHistory
        pairwiseSims :=
      (perm_sortDesc _ _).mem_iff.1 h1
    unfold scoredArticlesOf at h2
    rw [List.mem_filterMap] at h2
    obtain ⟨p, _, heq⟩ := h2
    by_cases hurl : p.2.url ∈ userHistory
    · simp [hurl] at heq
    · simp only [hurl, if_neg, if_false] at heq
      cases heq
      exact hurl

/-- C4 witness: a concrete run of the ranking engine, with the conclusion
obtained from `rank_excludes_history`. -/
theorem rank_excludes_history_witness :
    (⟨⟨"u1", "h", "", .str "", .str "", "", "", [], none⟩, 0, 0⟩ : ScoredArticle) ∈
      rankArticles [⟨"u1", "h", "", .str "", .str "", "", "", [], none⟩]
        ⟨none, none, none, none, none, none, none⟩ ["u2"] 10 (fun _ => []) ∧
    (⟨⟨"u1", "h", "", .str "", .str "", "", "", [], none⟩, 0, 0⟩ :
        ScoredArticle).article.url ∉ ["u2"] := by
  have hmem : (⟨⟨"u1", "h", "", .str "", .str "", "", "", [], none⟩, 0, 0⟩ :
      ScoredArticle) ∈
      rankArticles [⟨"u1", "h", "", .str "", .str "", "", "", [], none⟩]
        ⟨none, none, none, none, none, none, none⟩ ["u2"] 10 (fun _ => []) := by
    simp [rankArticles, scoredArticlesOf, meanSimilarity,
      calculateMetadataSimilarity, authorFieldMatches, truthyStr, truthyInt,
      AgentField.truthy, sortDesc, insertDesc, List.enum]
  exact ⟨hmem, rank_excludes_history _ _ _ _ _ _ hmem⟩

/-!
## C8: the audio/video branches (swapped-argument call)
-/

/-- An `audio` tuple carrying the `@type` second hop of its media object. -/
def audioRowC8 : Row := ⟨schemaAudio, "a1", some schemaType, some "AudioObject"⟩

/-- The 2-hop rows for an article with one audio object that has `@type` and
`caption` sub-triples. -/
def audioRowsC8 : List Row :=
  [audioRowC8, ⟨schemaAudio, "a1", some schemaCaption, some "cap"⟩]

/-- C8.  The audio builder itself, called with the arguments in signature
order, produces a non-empty media record from the sub-triples — but
`populate_article_data`'s audio collection stays empty on the same input,
because the source invokes `self.populate_audio_data(results, result)` with
the two arguments swapped, raising `AttributeError` (caught, tuple
skipped).  The same swap occurs on the `video` branch. -/
theorem audio_builder_result_never_appended :
    populateAudioData audioRowC8 audioRowsC8 =
      .ok { AvMediaData.init with
              atType := some "AudioObject", caption := some "cap" } ∧
    (populateArticleData audioRowsC8 "u").audio = [] := by
  constructor
  · rfl
  · rfl

/-!
## C6: upstream failure handling
-/

/-- C6.  A raised `RequestException` during the search HTTP POST is NOT
caught by `execute_search_sparql_query` (contrast `execute_sparql_query`,
which catches it and returns `[]`), so an upstream transport failure during
candidate retrieval propagates out of `get_recommendations` as an exception
instead of degrading to zero results. -/
theorem search_transport_failure_propagates :
    executeSearchSparqlQuery (.exception "connection error") =
      (Except.error "connection error" : Except String (List SearchBinding)) ∧
    executeSparqlQuery (.exception "connection error") = [] ∧
    getRecommendations (fun _ => [])
      (fun f => advancedSearch f (.exception "connection error")
        (.exception "connection error"))
      (fun _ => []) ["http://example.org/a"] 10 =
      Except.error "connection error" := by
  refine ⟨rfl, rfl, rfl⟩

/-!
## C7: tolerance of missing/unrecognized agent `@type`
-/

/-- C7 (amended).  Tolerance of missing or unrecognized agent `@type`
sub-values, per branch of `populate_article_data`:

* a `publisher` tuple with a missing `@type` sub-predicate, or with an
  unrecognized `@type` sub-value, leaves the publisher collection unchanged
  (the truthiness guard `and publisher_data` drops the empty dictionary);
* an `author` tuple with a missing `@type` sub-predicate leaves the author
  collection unchanged;
* but an `author` tuple whose `@type` sub-predicate is present with an
  unrecognized sub-value appends the empty dictionary `{}` to the author
  collection (subject to the dedup membership test, so at most once) — the
  collection is NOT left unchanged;
* an `editor` tuple always leaves the editor collection unchanged (the
  attempted append raises a caught `TypeError`).

No case raises a failure to the caller. -/
theorem agent_type_tolerance (results : List Row) (art : ArticleData)
    (r₁ r₂ r₃ r₄ : Row)
    (h₁p : r₁.p = schemaPublisher)
    (h₁ : r₁.subP ≠ some schemaType ∨
      (r₁.subO ≠ some "Person" ∧ r₁.subO ≠ some "Organization"))
    (h₂p : r₂.p = schemaAuthor) (h₂ : r₂.subP ≠ some schemaType)
    (h₃p : r₃.p = schemaAuthor) (h₃sub : r₃.subP = some schemaType)
    (h₃ : r₃.subO ≠ some "Person" ∧ r₃.subO ≠ some "Organization")
    (h₄p : r₄.p = schemaEditor) :
    (processResult results art r₁).publisher = art.publisher ∧
    (processResult results art r₂).author = art.author ∧
    (processResult results art r₃).author =
      (if AgentData.emptyAgent ∈ art.author then art.author
       else art.author ++ [AgentData.emptyAgent]) ∧
    (processResult results art r₄).editor = art.editor := by
  refine ⟨?_, ?_, ?_, ?_⟩
  · obtain ⟨-, -, -, -, -, -, -, -, -, -, -, -, -, hauth, hpub, himg, hthumb, haud, hvid, hedit, -⟩ := processResult_spec results art r₁
    rw [hpub, if_pos h₁p]
    rcases h₁ with h₁ | ⟨hso₁, hso₂⟩
    · rw [if_neg h₁]
    · by_cases hsub : r₁.subP = some schemaType
      · rw [if_pos hsub, if_pos]
        exact Or.inr (by simp [builtAgent, hso₁, hso₂])
      · rw [if_neg hsub]
  · obtain ⟨-, -, -, -, -, -, -, -, -, -, -, -, -, hauth, hpub, himg, hthumb, haud, hvid, hedit, -⟩ := processResult_spec results art r₂
    rw [hauth, if_pos h₂p, if_neg h₂]
  · obtain ⟨-, -, -, -, -, -, -, -, -, -, -, -, -, hauth, hpub, himg, hthumb, haud, hvid, hedit, -⟩ := processResult_spec results art r₃
    rw [hauth, if_pos h₃p, if_pos h₃sub]
    have hb : builtAgent r₃ results = AgentData.emptyAgent := by
      simp [builtAgent, h₃.1, h₃.2]
    rw [hb]
  · exact (processResult_spec results art r₄).2.2.2.2.2.2.2.2.2.2.2.2.2.2.2.2.2.2.2.1

/-- C7 counterexample.  An `author` tuple whose `@type` sub-value is the
unrecognized `Thing` does not leave the author collection unchanged: the
empty agent dictionary is appended. -/
theorem agent_type_tolerance_cex :
    (populateArticleData [⟨schemaAuthor, "x", some schemaType, some "Thing"⟩]
      "u").author = [AgentData.emptyAgent] ∧
    [AgentData.emptyAgent] ≠ ([] : List AgentData) := by
  exact ⟨rfl, by simp⟩

/-- C7 witness: the amended statement applied to a concrete publisher tuple
with `@type = Thing`, a concrete author tuple with no `@type` sub-predicate,
a concrete author tuple with `@type = Thing`, and a concrete editor tuple,
against an article state holding one Person author. -/
theorem agent_type_tolerance_witness :
    (processResult [] { initArticleData "u" with
        author := [.person PersonData.init] }
      ⟨schemaPublisher, "x", some schemaType, some "Thing"⟩).publisher = [] ∧
    (processResult [] { initArticleData "u" with
        author := [.person PersonData.init] }
      ⟨schemaAuthor, "y", some schemaName, some "n"⟩).author =
        [.person PersonData.init] ∧
    (processResult [] { initArticleData "u" with
        author := [.person PersonData.init] }
      ⟨schemaAuthor, "z", some schemaType, some "Thing"⟩).author =
        [.person PersonData.init, .emptyAgent] ∧
    (processResult [] { initArticleData "u" with
        author := [.person PersonData.init] }
      ⟨schemaEditor, "w", some schemaType, some "Person"⟩).editor = [] := by
  have h := agent_type_tolerance []
    { initArticleData "u" with author := [.person PersonData.init] }
    ⟨schemaPublisher, "x", some schemaType, some "Thing"⟩
    ⟨schemaAuthor, "y", some schemaName, some "n"⟩
    ⟨schemaAuthor, "z", some schemaType, some "Thing"⟩
    ⟨schemaEditor, "w", some schemaType, some "Person"⟩
    rfl (Or.inr ⟨by decide, by decide⟩) rfl (by decide) rfl rfl
    ⟨by decide, by decide⟩ rfl
  exact ⟨h.1.trans rfl, h.2.1.trans rfl, h.2.2.1.trans (by decide),
    h.2.2.2.trans rfl⟩

/-!
## C9: structural dedup of the agent and media collections
-/

theorem processResult_author_nodup (results : List Row) (art : ArticleData)
    (r : Row) (h : art.author.Nodup) :
    (processResult results art r).author.Nodup := by
  obtain ⟨-, -, -, -, -, -, -, -, -, -, -, -, -, hauth, hpub, himg, hthumb, haud, hvid, hedit, -⟩ := processResult_spec results art r
  rw [hauth]
  split_ifs with hp hsub hmem <;>
    first
    | exact h
    | exact List.Nodup.append h (List.nodup_singleton _)
        (List.disjoint_singleton.2 hmem)

theorem processResult_publisher_nodup (results : List Row) (art : ArticleData)
    (r : Row) (h : art.publisher.Nodup) :
    (processResult results art r).publisher.Nodup := by
  obtain ⟨-, -, -, -, -, -, -, -, -, -, -, -, -, hauth, hpub, himg, hthumb, haud, hvid, hedit, -⟩ := processResult_spec results art r
  rw [hpub]
  split_ifs with hp hsub hmem <;>
    first
    | exact h
    | exact List.Nodup.append h (List.nodup_singleton _)
        (List.disjoint_singleton.2 (fun hm => hmem (Or.inl hm)))

theorem processResult_image_nodup (results : List Row) (art : ArticleData)
    (r : Row) (h : art.image.Nodup) :
    (processResult results art r).image.Nodup := by
  obtain ⟨-, -, -, -, -, -, -, -, -, -, -, -, -, hauth, hpub, himg, hthumb, haud, hvid, hedit, -⟩ := processResult_spec results art r
  rw [himg]
  split
  · split
    · split_ifs with hmem
      · exact h
      · exact List.Nodup.append h (List.nodup_singleton _)
          (List.disjoint_singleton.2 hmem)
    · exact h
  · exact h

theorem processResult_audio_eq (results : List Row) (art : ArticleData)
    (r : Row) : (processResult results art r).audio = art.audio :=
  ((processResult_spec results art r).2.2.2.2.2.2.2.2.2.2.2.2.2.2.2.2.2).1

theorem processResult_video_eq (results : List Row) (art : ArticleData)
    (r : Row) : (processResult results art r).video = art.video :=
  ((processResult_spec results art r).2.2.2.2.2.2.2.2.2.2.2.2.2.2.2.2.2).2.1

theorem processResult_editor_eq (results : List Row) (art : ArticleData)
    (r : Row) : (processResult results art r).editor = art.editor :=
  ((processResult_spec results art r).2.2.2.2.2.2.2.2.2.2.2.2.2.2.2.2.2).2.2.1

theorem foldResults_author_nodup (results : List Row) (rows : List Row)
    (art : ArticleData) (h : art.author.Nodup) :
    (foldResults results art rows).author.Nodup := by
  induction rows generalizing art with
  | nil => exact h
  | cons r rs ih => exact ih _ (processResult_author_nodup results art r h)

theorem foldResults_publisher_nodup (results : List Row) (rows : List Row)
    (art : ArticleData) (h : art.publisher.Nodup) :
    (foldResults results art rows).publisher.Nodup := by
  induction rows generalizing art with
  | nil => exact h
  | cons r rs ih => exact ih _ (processResult_publisher_nodup results art r h)

theorem foldResults_image_nodup (results : List Row) (rows : List Row)
    (art : ArticleData) (h : art.image.Nodup) :
    (foldResults results art rows).image.Nodup := by
  induction rows generalizing art with
  | nil => exact h
  | cons r rs ih => exact ih _ (processResult_image_nodup results art r h)

theorem foldResults_audio_eq (results : List Row) (rows : List Row)
    (art : ArticleData) : (foldResults results art rows).audio = art.audio := by
  induction rows generalizing art with
  | nil => rfl
  | cons r rs ih => exact (ih _).trans (processResult_audio_eq results art r)

theorem foldResults_video_eq (results : List Row) (rows : List Row)
    (art : ArticleData) : (foldResults results art rows).video = art.video := by
  induction rows generalizing art with
  | nil => rfl
  | cons r rs ih => exact (ih _).trans (processResult_video_eq results art r)

theorem foldResults_editor_eq (results : List Row) (rows : List Row)
    (art : ArticleData) : (foldResults results art rows).editor = art.editor := by
  induction rows generalizing art with
  | nil => rfl
  | cons r rs ih => exact (ih _).trans (processResult_editor_eq results art r)

/-- C9.  The `author`, `publisher` and `image` collections of every
materialized record carry no structural duplicates; `audio`, `video` and
`editor` stay empty on every input (so they trivially never grow); and, at
the level of a single processing step, a tuple whose built agent/image
entity is structurally equal to one already present leaves the
corresponding collection unchanged. -/
theorem collections_dedup (results : List Row) (u : String) (all : List Row)
    (art : ArticleData) (r₁ r₂ r₃ : Row) (d : ImageData)
    (h₁p : r₁.p = schemaAuthor) (h₁ : builtAgent r₁ all ∈ art.author)
    (h₂p : r₂.p = schemaPublisher) (h₂ : builtAgent r₂ all ∈ art.publisher)
    (h₃p : r₃.p = schemaImage) (h₃ok : populateImageData r₃ all = .ok d)
    (h₃ : d ∈ art.image) :
    (populateArticleData results u).author.Nodup ∧
    (populateArticleData results u).publisher.Nodup ∧
    (populateArticleData results u).image.Nodup ∧
    (populateArticleData results u).audio = [] ∧
    (populateArticleData results u).video = [] ∧
    (populateArticleData results u).editor = [] ∧
    (processResult all art r₁).author = art.author ∧
    (processResult all art r₂).publisher = art.publisher ∧
    (processResult all art r₃).image = art.image := by
  refine ⟨foldResults_author_nodup results results _ List.nodup_nil,
    foldResults_publisher_nodup results results _ List.nodup_nil,
    foldResults_image_nodup results results _ List.nodup_nil,
    foldResults_audio_eq results results _,
    foldResults_video_eq results results _,
    foldResults_editor_eq results results _, ?_, ?_, ?_⟩
  · by_cases hsub : r₁.subP = some schemaType <;>
      simp [processResult, h₁p, hsub, h₁, schemaType, schemaHeadline,
        schemaDatePublished, schemaDateModified, schemaArticleBody,
        schemaWordCount, schemaInLanguage, schemaThumbnailUrl,
        schemaArticleSection, schemaAbstract, schemaKeywords, schemaUrl,
        schemaAuthor]
  · by_cases hsub : r₂.subP = some schemaType <;>
      simp [processResult, h₂p, hsub, h₂, schemaType, schemaHeadline,
        schemaDatePublished, schemaDateModified, schemaArticleBody,
        schemaWordCount, schemaInLanguage, schemaThumbnailUrl,
        schemaArticleSection, schemaAbstract, schemaKeywords, schemaUrl,
        schemaAuthor, schemaPublisher]
  · simp [processResult, h₃p, h₃ok, h₃, schemaType, schemaHeadline,
      schemaDatePublished, schemaDateModified, schemaArticleBody,
      schemaWordCount, schemaInLanguage, schemaThumbnailUrl,
      schemaArticleSection, schemaAbstract, schemaKeywords, schemaUrl,
      schemaAuthor, schemaPublisher, schemaImage]

/-- C9 witness: a result set repeating one Person `author` tuple
materializes a single author entry, and the step facts applied to concrete
states already holding the would-be-added entity. -/
theorem collections_dedup_witness :
    (populateArticleData [⟨schemaAuthor, "x", some schemaType, some "Person"⟩,
        ⟨schemaAuthor, "x", some schemaType, some "Person"⟩] "u").author.Nodup ∧
    (processResult [] { initArticleData "u" with author := [.emptyAgent] }
      ⟨schemaAuthor, "x", some schemaType, some "Thing"⟩).author =
        [.emptyAgent] ∧
    (processResult [] { initArticleData "u" with publisher := [.emptyAgent] }
      ⟨schemaPublisher, "x", some schemaType, some "Thing"⟩).publisher =
        [.emptyAgent] ∧
    (processResult [] { initArticleData "u" with image := [ImageData.init] }
      ⟨schemaImage, "x", none, none⟩).image = [ImageData.init] := by
  have h := collections_dedup
    [⟨schemaAuthor, "x", some schemaType, some "Person"⟩,
     ⟨schemaAuthor, "x", some schemaType, some "Person"⟩] "u" []
    { initArticleData "u" with
        author := [.emptyAgent], publisher := [.emptyAgent],
        image := [ImageData.init] }
    ⟨schemaAuthor, "x", some schemaType, some "Thing"⟩
    ⟨schemaPublisher, "x", some schemaType, some "Thing"⟩
    ⟨schemaImage, "x", none, none⟩ ImageData.init
    rfl (by decide) rfl (by decide) rfl rfl (by decide)
  exact ⟨h.1, h.2.2.2.2.2.2.1.trans rfl, h.2.2.2.2.2.2.2.1.trans rfl,
    h.2.2.2.2.2.2.2.2.trans rfl⟩

/-!
## C5: the relaxation protocol of `_get_candidate_articles`
-/

/-- C5.  When the strict candidate-source call returns an empty result,
`_get_candidate_articles` makes exactly one relaxed retry whose filter set
clears `author_name` and `publisher` and keeps every other profile filter
unchanged, with no further fallback (the call trace has exactly the two
entries); and when the relaxed call is also empty, `get_recommendations`
returns an empty recommendation list. -/
theorem relaxation_protocol
    (search : SearchFilters → Except String (List CandArticle))
    (preferences : Preferences) (rowsOf : String → List Row)
    (pairwiseSims : ℕ → List ℚ) (userHistory : List String)
    (maxRecommendations : ℕ)
    (hstrict : search (strictFiltersOf preferences) = .ok []) :
    getCandidateArticles search preferences =
      search (relaxedFiltersOf preferences) ∧
    relaxedFiltersOf preferences =
      { strictFiltersOf preferences with authorName := none, publisher := none } ∧
    candidateSearchCalls search preferences =
      [strictFiltersOf preferences, relaxedFiltersOf preferences] ∧
    (search (relaxedFiltersOf preferences) = .ok [] →
      extractUserPreferences
          (userHistory.map (fun u => populateArticleData (rowsOf u) u)) =
        preferences →
      getRecommendations rowsOf search pairwiseSims userHistory
        maxRecommendations = .ok []) := by
  have h1 : getCandidateArticles search preferences =
      search (relaxedFiltersOf preferences) := by
    unfold getCandidateArticles
    rw [hstrict]
    rfl
  refine ⟨h1, rfl, by simp [candidateSearchCalls, hstrict], ?_⟩
  intro hrelax hpref
  unfold getRecommendations
  by_cases hv : userHistory.map (fun u => populateArticleData (rowsOf u) u) = []
  · simp [hv]
  · simp [hv, hpref, h1, hrelax, rankArticles]

/-- C5 witness: a candidate source that always returns zero articles, with a
one-URL history whose 2-hop query returns no rows. -/
theorem relaxation_protocol_witness :
    getCandidateArticles (fun _ => .ok [])
      (extractUserPreferences [populateArticleData [] "u"]) = .ok [] ∧
    candidateSearchCalls (fun _ => .ok [])
      (extractUserPreferences [populateArticleData [] "u"]) =
      [strictFiltersOf (extractUserPreferences [populateArticleData [] "u"]),
       relaxedFiltersOf (extractUserPreferences [populateArticleData [] "u"])] ∧
    getRecommendations (fun _ => []) (fun _ => .ok []) (fun _ => []) ["u"] 10 =
      .ok [] := by
  have h := relaxation_protocol (fun _ => .ok [])
    (extractUserPreferences [populateArticleData [] "u"]) (fun _ => [])
    (fun _ => []) ["u"] 10 rfl
  exact ⟨h.1.trans rfl, h.2.2.1, h.2.2.2 rfl rfl⟩

/-!
## C10: word-count percentile bounds of `_extract_user_preferences`
-/

/-- C10 (amended).  The word-count preference bounds are the
truncations-to-int (`int(np.percentile(...))`) of the linear-interpolated
25th/75th percentiles of the collected word counts (those of history
records exposing a non-zero word count — Python truthiness), absent when no
record exposes one; on the concrete word counts `[100, 200, 300, 400]` the
percentiles are exactly 175 and 325 and the extractor yields them
unchanged. -/
theorem wordcount_percentile_bounds (viewedArticles : List ArticleData) :
    (extractUserPreferences viewedArticles).wordcountMin =
      (if collectedWordCounts viewedArticles = [] then none
       else some (pyTrunc (npPercentile (collectedWordCounts viewedArticles) 25))) ∧
    (extractUserPreferences viewedArticles).wordcountMax =
      (if collectedWordCounts viewedArticles = [] then none
       else some (pyTrunc (npPercentile (collectedWordCounts viewedArticles) 75))) ∧
    npPercentile [100, 200, 300, 400] 25 = 175 ∧
    npPercentile [100, 200, 300, 400] 75 = 325 ∧
    (extractUserPreferences
      [{ initArticleData "a" with wordCount := some 100 },
       { initArticleData "b" with wordCount := some 200 },
       { initArticleData "c" with wordCount := some 300 },
       { initArticleData "d" with wordCount := some 400 }]).wordcountMin =
      some 175 ∧
    (extractUserPreferences
      [{ initArticleData "a" with wordCount := some 100 },
       { initArticleData "b" with wordCount := some 200 },
       { initArticleData "c" with wordCount := some 300 },
       { initArticleData "d" with wordCount := some 400 }]).wordcountMax =
      some 325 := by
  refine ⟨rfl, rfl, ?_, ?_, ?_, ?_⟩
  · simp [npPercentile, sortDesc, insertDesc, Int.toNat_ofNat]
    norm_num
  · simp [npPercentile, sortDesc, insertDesc, Int.toNat_ofNat]
    norm_num
  · simp [extractUserPreferences, collectedWordCounts, npPercentile, sortDesc,
      insertDesc, pyTrunc, Int.toNat_ofNat]
    norm_num
  · simp [extractUserPreferences, collectedWordCounts, npPercentile, sortDesc,
      insertDesc, pyTrunc, Int.toNat_ofNat]
    norm_num

/-- C10 counterexample.  On word counts `[100, 201]` the linear-interpolated
25th percentile is 501/4 = 125.25, but the extractor stores
`int(np.percentile(...))` = 125: `wordcountMin` is not the percentile
itself. -/
theorem wordcount_percentile_cex :
    (extractUserPreferences
      [{ initArticleData "a" with wordCount := some 100 },
       { initArticleData "b" with wordCount := some 201 }]).wordcountMin =
      some 125 ∧
    npPercentile [100, 201] 25 = 501 / 4 ∧
    ((125 : ℚ) ≠ 501 / 4) := by
  refine ⟨?_, ?_, by norm_num⟩
  · simp [extractUserPreferences, collectedWordCounts, npPercentile, sortDesc,
      insertDesc, pyTrunc, Int.toNat_ofNat]
    norm_num
  · simp [npPercentile, sortDesc, insertDesc, Int.toNat_ofNat]
    norm_num

/-!
## C2: score composition and bounds
-/

/-- The candidate author names readable from an author/publisher field, as
the specification's sentence "any candidate author name equals the profile's
preferred author name" denotes them (spec-side definition, used only to
state the refutation of C2 as written). -/
def specAuthorNames : AgentField → List String
  | .absent => []
  | .str s => [s]
  | .agent a => (agentName a).toList
  | .agents l => l.filterMap agentName

/-- The metadata score exactly as C2's sentence reads (spec-side definition,
used only to state the refutation): `+0.3` if any candidate author name
equals the preferred author name, `+0.3` likewise for publisher, `+0.4` if
the candidate's word count lies within the inclusive bounds, the word-count
component evaluated only when both bounds are present. -/
def claimedMetadataScore (article : CandArticle) (preferences : Preferences) : ℚ :=
  (if (specAuthorNames article.author).any
      (fun n => preferences.authorName = some n) then 3/10 else 0) +
  (if (specAuthorNames article.publisher).any
      (fun n => preferences.publisher = some n) then 3/10 else 0) +
  (match article.wordCount, preferences.wordcountMin, preferences.wordcountMax with
   | some wc, some lo, some hi => if lo ≤ wc ∧ wc ≤ hi then 2/5 else 0
   | _, _, _ => 0)

/-- C2 counterexample.  A candidate whose `author` field is the plain string
`"Alice"` (the shape every search-produced candidate has) with preferred
author name `"Alice"` scores 0: the scorer only inspects list- and
dict-shaped author fields, so the claimed `+0.3` author component is
missing. -/
theorem metadata_score_cex :
    calculateMetadataSimilarity
      ⟨"u", "", "", .str "Alice", .str "", "", "", [], none⟩
      ⟨none, none, none, some "Alice", none, none, none⟩ = 0 ∧
    claimedMetadataScore
      ⟨"u", "", "", .str "Alice", .str "", "", "", [], none⟩
      ⟨none, none, none, some "Alice", none, none, none⟩ = 3/10 ∧
    calculateMetadataSimilarity
      ⟨"u", "", "", .str "Alice", .str "", "", "", [], none⟩
      ⟨none, none, none, some "Alice", none, none, none⟩ ≠
      claimedMetadataScore
        ⟨"u", "", "", .str "Alice", .str "", "", "", [], none⟩
        ⟨none, none, none, some "Alice", none, none, none⟩ := by
  refine ⟨?_, ?_, ?_⟩
  · simp [calculateMetadataSimilarity, authorFieldMatches, AgentField.truthy,
      truthyStr, truthyInt]
  · simp [claimedMetadataScore, specAuthorNames]
  · simp [calculateMetadataSimilarity, claimedMetadataScore, specAuthorNames,
      authorFieldMatches, AgentField.truthy, truthyStr, truthyInt]
    norm_num

theorem metadata_bounds (article : CandArticle) (preferences : Preferences) :
    0 ≤ calculateMetadataSimilarity article preferences ∧
    calculateMetadataSimilarity article preferences ≤ 1 := by
  unfold calculateMetadataSimilarity
  split_ifs <;> norm_num

theorem meanSimilarity_bounds (sims : List ℚ)
    (h : ∀ q ∈ sims, 0 ≤ q ∧ q ≤ 1) :
    0 ≤ meanSimilarity sims ∧ meanSimilarity sims ≤ 1 := by
  unfold meanSimilarity
  rcases eq_or_ne sims [] with rfl | hne
  · simp
  · have hlen : 0 < ((sims.length : ℚ)) := by
      have := List.length_pos.2 hne
      exact_mod_cast this
    constructor
    · exact div_nonneg (List.sum_nonneg (fun q hq => (h q hq).1)) hlen.le
    · rw [div_le_one hlen]
      have := List.sum_le_card_nsmul sims 1 (fun x hx => (h x hx).2)
      simpa using this

/-- C2 (amended).  For every candidate scored by `_rank_articles`:
`finalScore = 0.7·similarityScore + 0.3·metadataScore`, where the metadata
score is the additive `_calculate_metadata_similarity` value (author and
publisher components fire only for list- or dict-shaped agent fields, and
the word-count component only when the candidate count and both bounds are
present and non-zero), `0 ≤ metadataScore ≤ 1`, and — given that the
pairwise cosine similarities of the TF-IDF vectorization lie in `[0, 1]` —
`similarityScore`, their arithmetic mean over the viewed texts, also lies
in `[0, 1]`. -/
theorem score_composition_and_bounds (candidateArticles : List CandArticle)
    (preferences : Preferences) (userHistory : List String)
    (maxRecommendations : ℕ) (pairwiseSims : ℕ → List ℚ)
    (hsim : ∀ i, ∀ q ∈ pairwiseSims i, 0 ≤ q ∧ q ≤ 1)
    (sa : ScoredArticle)
    (hmem : sa ∈ rankArticles candidateArticles preferences userHistory
      maxRecommendations pairwiseSims) :
    sa.finalScore = 7/10 * sa.similarityScore +
      3/10 * calculateMetadataSimilarity sa.article preferences ∧
    0 ≤ sa.similarityScore ∧ sa.similarityScore ≤ 1 ∧
    0 ≤ calculateMetadataSimilarity sa.article preferences ∧
    calculateMetadataSimilarity sa.article preferences ≤ 1 := by
  unfold rankArticles at hmem
  split at hmem
  · exact absurd hmem (List.not_mem_nil sa)
  · have h1 : sa ∈ sortDesc (fun sa : ScoredArticle => sa.finalScore)
        (scoredArticlesOf candidateArticles preferences userHistory
          pairwiseSims) :=
      List.take_subset _ _ hmem
    have h2 : sa ∈ scoredArticlesOf candidateArticles preferences userHistory
        pairwiseSims :=
      (perm_sortDesc _ _).mem_iff.1 h1
    unfold scoredArticlesOf at h2
    rw [List.mem_filterMap] at h2
    obtain ⟨p, _, heq⟩ := h2
    by_cases hurl : p.2.url ∈ userHistory
    · simp [hurl] at heq
    · simp only [hurl, if_neg, if_false] at heq
      cases heq
      refine ⟨rfl, ?_, ?_, (metadata_bounds _ _).1, (metadata_bounds _ _).2⟩
      · exact (meanSimilarity_bounds _ (hsim p.1)).1
      · exact (meanSimilarity_bounds _ (hsim p.1)).2

/-- C2 witness: a concrete ranking run with one candidate, one viewed text
and cosine similarity 0, with the conclusions obtained from
`score_composition_and_bounds`. -/
theorem score_composition_and_bounds_witness :
    (⟨⟨"u1", "h", "", .str "", .str "", "", "", [], none⟩,
        meanSimilarity [0],
        7/10 * meanSimilarity [0] + 3/10 * calculateMetadataSimilarity
          ⟨"u1", "h", "", .str "", .str "", "", "", [], none⟩
          ⟨none, none, none, none, none, none, none⟩⟩ : ScoredArticle) ∈
      rankArticles [⟨"u1", "h", "", .str "", .str "", "", "", [], none⟩]
        ⟨none, none, none, none, none, none, none⟩ [] 10 (fun _ => [0]) ∧
    0 ≤ (⟨⟨"u1", "h", "", .str "", .str "", "", "", [], none⟩,
        meanSimilarity [0],
        7/10 * meanSimilarity [0] + 3/10 * calculateMetadataSimilarity
          ⟨"u1", "h", "", .str "", .str "", "", "", [], none⟩
          ⟨none, none, none, none, none, none, none⟩⟩ :
        ScoredArticle).similarityScore := by
  have hmem : (⟨⟨"u1", "h", "", .str "", .str "", "", "", [], none⟩,
      meanSimilarity [0],
      7/10 * meanSimilarity [0] + 3/10 * calculateMetadataSimilarity
        ⟨"u1", "h", "", .str "", .str "", "", "", [], none⟩
        ⟨none, none, none, none, none, none, none⟩⟩ : ScoredArticle) ∈
      rankArticles [⟨"u1", "h", "", .str "", .str "", "", "", [], none⟩]
        ⟨none, none, none, none, none, none, none⟩ [] 10 (fun _ => [0]) := by
    simp [rankArticles, scoredArticlesOf, sortDesc, insertDesc, List.enum]
  have h := score_composition_and_bounds
    [⟨"u1", "h", "", .str "", .str "", "", "", [], none⟩]
    ⟨none, none, none, none, none, none, none⟩ [] 10 (fun _ => [0])
    (fun i q hq => by
      simp only [List.mem_singleton] at hq
      subst hq
      exact ⟨le_refl 0, zero_le_one⟩)
    _ hmem
  exact ⟨hmem, h.2.1⟩

/-!
## C1: permutation invariance of materialization
-/

/-- Last-write-wins accumulation: fold a list of written values over an
optional initial value. -/
def lastSet {α : Type} (d : Option α) (l : List α) : Option α :=
  l.foldl (fun _ v => some v) d

/-- Last-write-wins accumulation over a mandatory string field (`url`). -/
def lastSetStr (d : String) (l : List String) : String :=
  l.foldl (fun _ v => v) d

theorem foldResults_atType (results rows : List Row) (art : ArticleData) :
    (foldResults results art rows).atType =
      lastSet art.atType
        ((rows.filter (fun r => r.p = schemaType)).map (fun r => r.o)) := by
  induction rows generalizing art with
  | nil => rfl
  | cons r rs ih =>
    obtain ⟨-, hf, -, -, -, -, -, -, -, -, -, -, -, -, -, -, -, -, -, -, -⟩ := processResult_spec results art r
    show (foldResults results (processResult results art r) rs).atType = _
    rw [ih, hf]
    by_cases hp : r.p = schemaType <;>
      simp [hp, List.filter_cons, lastSet]

theorem foldResults_headline (results rows : List Row) (art : ArticleData) :
    (foldResults results art rows).headline =
      lastSet art.headline
        ((rows.filter (fun r => r.p = schemaHeadline)).map (fun r => r.o)) := by
  induction rows generalizing art with
  | nil => rfl
  | cons r rs ih =>
    obtain ⟨-, -, hf, -, -, -, -, -, -, -, -, -, -, -, -, -, -, -, -, -, -⟩ := processResult_spec results art r
    show (foldResults results (processResult results art r) rs).headline = _
    rw [ih, hf]
    by_cases hp : r.p = schemaHeadline <;>
      simp [hp, List.filter_cons, lastSet]

theorem foldResults_datePublished (results rows : List Row) (art : ArticleData) :
    (foldResults results art rows).datePublished =
      lastSet art.datePublished
        ((rows.filter (fun r => r.p = schemaDatePublished)).map (fun r => r.o)) := by
  induction rows generalizing art with
  | nil => rfl
  | cons r rs ih =>
    obtain ⟨-, -, -, hf, -, -, -, -, -, -, -, -, -, -, -, -, -, -, -, -, -⟩ := processResult_spec results art r
    show (foldResults results (processResult results art r) rs).datePublished = _
    rw [ih, hf]
    by_cases hp : r.p = schemaDatePublished <;>
      simp [hp, List.filter_cons, lastSet]

theorem foldResults_dateModified (results rows : List Row) (art : ArticleData) :
    (foldResults results art rows).dateModified =
      lastSet art.dateModified
        ((rows.filter (fun r => r.p = schemaDateModified)).map (fun r => r.o)) := by
  induction rows generalizing art with
  | nil => rfl
  | cons r rs ih =>
    obtain ⟨-, -, -, -, hf, -, -, -, -, -, -, -, -, -, -, -, -, -, -, -, -⟩ := processResult_spec results art r
    show (foldResults results (processResult results art r) rs).dateModified = _
    rw [ih, hf]
    by_cases hp : r.p = schemaDateModified <;>
      simp [hp, List.filter_cons, lastSet]

theorem foldResults_articleBody (results rows : List Row) (art : ArticleData) :
    (foldResults results art rows).articleBody =
      lastSet art.articleBody
        ((rows.filter (fun r => r.p = schemaArticleBody)).map (fun r => r.o)) := by
  induction rows generalizing art with
  | nil => rfl
  | cons r rs ih =>
    obtain ⟨-, -, -, -, -, hf, -, -, -, -, -, -, -, -, -, -, -, -, -, -, -⟩ := processResult_spec results art r
    show (foldResults results (processResult results art r) rs).articleBody = _
    rw [ih, hf]
    by_cases hp : r.p = schemaArticleBody <;>
      simp [hp, List.filter_cons, lastSet]

theorem foldResults_inLanguage (results rows : List Row) (art : ArticleData) :
    (foldResults results art rows).inLanguage =
      lastSet art.inLanguage
        ((rows.filter (fun r => r.p = schemaInLanguage)).map (fun r => r.o)) := by
  induction rows generalizing art with
  | nil => rfl
  | cons r rs ih =>
    obtain ⟨-, -, -, -, -, -, -, hf, -, -, -, -, -, -, -, -, -, -, -, -, -⟩ := processResult_spec results art r
    show (foldResults results (processResult results art r) rs).inLanguage = _
    rw [ih, hf]
    by_cases hp : r.p = schemaInLanguage <;>
      simp [hp, List.filter_cons, lastSet]

theorem foldResults_thumbnailUrl (results rows : List Row) (art : ArticleData) :
    (foldResults results art rows).thumbnailUrl =
      lastSet art.thumbnailUrl
        ((rows.filter (fun r => r.p = schemaThumbnailUrl)).map (fun r => r.o)) := by
  induction rows generalizing art with
  | nil => rfl
  | cons r rs ih =>
    obtain ⟨-, -, -, -, -, -, -, -, hf, -, -, -, -, -, -, -, -, -, -, -, -⟩ := processResult_spec results art r
    show (foldResults results (processResult results art r) rs).thumbnailUrl = _
    rw [ih, hf]
    by_cases hp : r.p = schemaThumbnailUrl <;>
      simp [hp, List.filter_cons, lastSet]

theorem foldResults_articleSection (results rows : List Row) (art : ArticleData) :
    (foldResults results art rows).articleSection =
      lastSet art.articleSection
        ((rows.filter (fun r => r.p = schemaArticleSection)).map (fun r => r.o)) := by
  induction rows generalizing art with
  | nil => rfl
  | cons r rs ih =>
    obtain ⟨-, -, -, -, -, -, -, -, -, hf, -, -, -, -, -, -, -, -, -, -, -⟩ := processResult_spec results art r
    show (foldResults results (processResult results art r) rs).articleSection = _
    rw [ih, hf]
    by_cases hp : r.p = schemaArticleSection <;>
      simp [hp, List.filter_cons, lastSet]

theorem foldResults_abstract (results rows : List Row) (art : ArticleData) :
    (foldResults results art rows).abstract =
      lastSet art.abstract
        ((rows.filter (fun r => r.p = schemaAbstract)).map (fun r => r.o)) := by
  induction rows generalizing art with
  | nil => rfl
  | cons r rs ih =>
    obtain ⟨-, -, -, -, -, -, -, -, -, -, hf, -, -, -, -, -, -, -, -, -, -⟩ := processResult_spec results art r
    show (foldResults results (processResult results art r) rs).abstract = _
    rw [ih, hf]
    by_cases hp : r.p = schemaAbstract <;>
      simp [hp, List.filter_cons, lastSet]

theorem foldResults_dateCreated (results rows : List Row) (art : ArticleData) :
    (foldResults results art rows).dateCreated =
      lastSet art.dateCreated
        ((rows.filter (fun r => r.p = schemaDateCreated)).map (fun r => r.o)) := by
  induction rows generalizing art with
  | nil => rfl
  | cons r rs ih =>
    obtain ⟨-, -, -, -, -, -, -, -, -, -, -, -, -, -, -, -, -, -, -, -, hf⟩ := processResult_spec results art r
    show (foldResults results (processResult results art r) rs).dateCreated = _
    rw [ih, hf]
    by_cases hp : r.p = schemaDateCreated <;>
      simp [hp, List.filter_cons, lastSet]

theorem foldResults_wordCount (results rows : List Row) (art : ArticleData) :
    (foldResults results art rows).wordCount =
      lastSet art.wordCount
        (rows.filterMap (fun r =>
          if r.p = schemaWordCount then pyInt? r.o else none)) := by
  induction rows generalizing art with
  | nil => rfl
  | cons r rs ih =>
    obtain ⟨-, -, -, -, -, -, hf, -, -, -, -, -, -, -, -, -, -, -, -, -, -⟩ := processResult_spec results art r
    show (foldResults results (processResult results art r) rs).wordCount = _
    rw [ih, hf]
    by_cases hp : r.p = schemaWordCount
    · cases hw : pyInt? r.o <;> simp [hp, hw, List.filterMap_cons, lastSet]
    · simp [hp, List.filterMap_cons, lastSet]

theorem foldResults_url (results rows : List Row) (art : ArticleData) :
    (foldResults results art rows).url =
      lastSetStr art.url
        ((rows.filter (fun r => r.p = schemaUrl)).map (fun r => r.o)) := by
  induction rows generalizing art with
  | nil => rfl
  | cons r rs ih =>
    obtain ⟨-, -, -, -, -, -, -, -, -, -, -, -, hf, -, -, -, -, -, -, -, -⟩ := processResult_spec results art r
    show (foldResults results (processResult results art r) rs).url = _
    rw [ih, hf]
    by_cases hp : r.p = schemaUrl <;>
      simp [hp, List.filter_cons, lastSetStr]

theorem foldResults_keywords (results rows : List Row) (art : ArticleData) :
    (foldResults results art rows).keywords =
      art.keywords ++
        (rows.filter (fun r => r.p = schemaKeywords)).map (fun r => r.o) := by
  induction rows generalizing art with
  | nil => simp [foldResults]
  | cons r rs ih =>
    obtain ⟨-, -, -, -, -, -, -, -, -, -, -, hf, -, -, -, -, -, -, -, -, -⟩ := processResult_spec results art r
    show (foldResults results (processResult results art r) rs).keywords = _
    rw [ih, hf]
    by_cases hp : r.p = schemaKeywords <;>
      simp [hp, List.filter_cons]

theorem filterMap_wordCount_guard (rows : List Row) :
    rows.filterMap (fun r =>
        if r.p = schemaWordCount then pyInt? r.o else none) =
      (rows.filter (fun r => r.p = schemaWordCount)).filterMap
        (fun r => pyInt? r.o) := by
  induction rows with
  | nil => rfl
  | cons r rs ih =>
    by_cases hp : r.p = schemaWordCount <;>
      simp [hp, List.filterMap_cons, List.filter_cons, ih]

theorem small_perm_eq {α : Type} {l₁ l₂ : List α} (h : l₁.Perm l₂)
    (hlen : l₁.length ≤ 1) : l₁ = l₂ := by
  cases l₁ with
  | nil => exact h.nil_eq
  | cons a t =>
    cases t with
    | nil => exact List.singleton_perm.1 h
    | cons b t2 => simp at hlen

/-- The predicates whose `populate_article_data` branch assigns a scalar
(last-write-wins) field. -/
def scalarPredicates : List String :=
  [schemaType, schemaHeadline, schemaDatePublished, schemaDateModified,
   schemaArticleBody, schemaWordCount, schemaInLanguage, schemaThumbnailUrl,
   schemaArticleSection, schemaAbstract, schemaUrl, schemaDateCreated]

/-- C1 (amended).  Materialization under permutation of the input tuple
multiset: provided each scalar predicate occurs at most once (duplicated
scalar predicates resolve last-write-wins and are therefore order
dependent), all scalar fields — including `wordCount` and `url` — are
invariant; the `keywords` list is always exactly the keyword tuples'
objects in input occurrence order, so a permutation permutes it
identically.  The agent/media collections are input-order-sensitive
sequences (their order, and the content of entities with duplicated
sub-predicates, follows tuple order) and are not covered by the
invariance. -/
theorem populate_scalar_keyword_invariance (rows₁ rows₂ : List Row)
    (u : String) (hperm : rows₁.Perm rows₂)
    (hdup : ∀ P ∈ scalarPredicates,
      (rows₁.filter (fun r => r.p = P)).length ≤ 1) :
    (populateArticleData rows₁ u).atType = (populateArticleData rows₂ u).atType ∧
    (populateArticleData rows₁ u).headline =
      (populateArticleData rows₂ u).headline ∧
    (populateArticleData rows₁ u).datePublished =
      (populateArticleData rows₂ u).datePublished ∧
    (populateArticleData rows₁ u).dateModified =
      (populateArticleData rows₂ u).dateModified ∧
    (populateArticleData rows₁ u).articleBody =
      (populateArticleData rows₂ u).articleBody ∧
    (populateArticleData rows₁ u).wordCount =
      (populateArticleData rows₂ u).wordCount ∧
    (populateArticleData rows₁ u).inLanguage =
      (populateArticleData rows₂ u).inLanguage ∧
    (populateArticleData rows₁ u).thumbnailUrl =
      (populateArticleData rows₂ u).thumbnailUrl ∧
    (populateArticleData rows₁ u).articleSection =
      (populateArticleData rows₂ u).articleSection ∧
    (populateArticleData rows₁ u).abstract =
      (populateArticleData rows₂ u).abstract ∧
    (populateArticleData rows₁ u).url = (populateArticleData rows₂ u).url ∧
    (populateArticleData rows₁ u).dateCreated =
      (populateArticleData rows₂ u).dateCreated ∧
    (populateArticleData rows₁ u).keywords.Perm
      (populateArticleData rows₂ u).keywords ∧
    (populateArticleData rows₁ u).keywords =
      (rows₁.filter (fun r => r.p = schemaKeywords)).map (fun r => r.o) := by
  have hf : ∀ P ∈ scalarPredicates,
      rows₁.filter (fun r => r.p = P) = rows₂.filter (fun r => r.p = P) :=
    fun P hP => small_perm_eq (hperm.filter _) (hdup P hP)
  unfold populateArticleData
  refine ⟨?_, ?_, ?_, ?_, ?_, ?_, ?_, ?_, ?_, ?_, ?_, ?_, ?_, ?_⟩
  · simp only [foldResults_atType]
    rw [hf schemaType (by simp [scalarPredicates])]
  · simp only [foldResults_headline]
    rw [hf schemaHeadline (by simp [scalarPredicates])]
  · simp only [foldResults_datePublished]
    rw [hf schemaDatePublished (by simp [scalarPredicates])]
  · simp only [foldResults_dateModified]
    rw [hf schemaDateModified (by simp [scalarPredicates])]
  · simp only [foldResults_articleBody]
    rw [hf schemaArticleBody (by simp [scalarPredicates])]
  · simp only [foldResults_wordCount, filterMap_wordCount_guard]
    rw [hf schemaWordCount (by simp [scalarPredicates])]
  · simp only [foldResults_inLanguage]
    rw [hf schemaInLanguage (by simp [scalarPredicates])]
  · simp only [foldResults_thumbnailUrl]
    rw [hf schemaThumbnailUrl (by simp [scalarPredicates])]
  · simp only [foldResults_articleSection]
    rw [hf schemaArticleSection (by simp [scalarPredicates])]
  · simp only [foldResults_abstract]
    rw [hf schemaAbstract (by simp [scalarPredicates])]
  · simp only [foldResults_url]
    rw [hf schemaUrl (by simp [scalarPredicates])]
  · simp only [foldResults_dateCreated]
    rw [hf schemaDateCreated (by simp [scalarPredicates])]
  · simp only [foldResults_keywords]
    simpa using (hperm.filter (fun r => decide (r.p = schemaKeywords))).map
      (fun r => r.o)
  · simp only [foldResults_keywords]
    simp [initArticleData]

/-- C1 counterexample.  A multiset with two `headline` tuples: swapping them
is a permutation that leaves the keywords list unchanged (both empty) yet
changes the materialized `headline` — the record is not invariant under
permutation "except for the order of the keywords list". -/
theorem populate_perm_cex :
    ([⟨schemaHeadline, "A", none, none⟩, ⟨schemaHeadline, "B", none, none⟩] :
        List Row).Perm
      [⟨schemaHeadline, "B", none, none⟩, ⟨schemaHeadline, "A", none, none⟩] ∧
    (populateArticleData
      [⟨schemaHeadline, "A", none, none⟩, ⟨schemaHeadline, "B", none, none⟩]
      "u").keywords =
      (populateArticleData
        [⟨schemaHeadline, "B", none, none⟩, ⟨schemaHeadline, "A", none, none⟩]
        "u").keywords ∧
    (populateArticleData
      [⟨schemaHeadline, "A", none, none⟩, ⟨schemaHeadline, "B", none, none⟩]
      "u").headline ≠
      (populateArticleData
        [⟨schemaHeadline, "B", none, none⟩, ⟨schemaHeadline, "A", none, none⟩]
        "u").headline := by
  refine ⟨List.Perm.swap _ _ _, rfl, ?_⟩
  decide

/-- C1 witness: a concrete two-tuple multiset (one headline, one keyword)
and a transposition of it, with all hypotheses checked by computation and
the conclusions obtained from `populate_scalar_keyword_invariance`. -/
theorem populate_scalar_keyword_invariance_witness :
    (populateArticleData
      [⟨schemaHeadline, "H", none, none⟩, ⟨schemaKeywords, "k", none, none⟩]
      "u").headline =
      (populateArticleData
        [⟨schemaKeywords, "k", none, none⟩, ⟨schemaHeadline, "H", none, none⟩]
        "u").headline ∧
    (populateArticleData
      [⟨schemaHeadline, "H", none, none⟩, ⟨schemaKeywords, "k", none, none⟩]
      "u").keywords =
      ["k"] := by
  have h := populate_scalar_keyword_invariance
    [⟨schemaHeadline, "H", none, none⟩, ⟨schemaKeywords, "k", none, none⟩]
    [⟨schemaKeywords, "k", none, none⟩, ⟨schemaHeadline, "H", none, none⟩]
    "u" (List.Perm.swap _ _ _) (by decide)
  exact ⟨h.2.1, h.2.2.2.2.2.2.2.2.2.2.2.2.2.trans (by decide)⟩
